import Mathlib

/-!
# Verification of the br1dge audio core

Shallow embedding of the Tone.js audio core of the br1dge website
(`src/lib/audio/tone/`): the Effect Chain, the Ambient Soundscape, the
SFX engine (the "Cinematic" variant, which the src orchestrator pairs
with), the MusicLoopSystem loop player, and the ToneAudioSystem
orchestrator.  Machine state is modelled as explicit records; every
call into the underlying audio engine is recorded as an emitted
operation together with a flag saying whether the source wraps that
call in a try/catch.  Gain and frequency values are exact rationals.
-/

set_option autoImplicit false

namespace Br1dge

/-! ## Engine calls and fault model -/

/-- A handle to an audio node owned by a component.  `uid` identifies the
underlying engine object (by creation order); `disposed` records whether
`dispose()` has been called on it. -/
structure Node where
  uid : Nat
  disposed : Bool
deriving DecidableEq

/-- One call into the underlying audio engine, together with whether the
source wraps that call in a try/catch (`caught = true` means a throw at
this call is swallowed and never escapes the public method). -/
structure Emit (α : Type) where
  op : α
  caught : Bool
deriving DecidableEq

/-- Whether running the listed engine calls under fault oracle `orc`
(which says which engine calls throw) raises an exception that escapes
to the caller: true iff some emitted op throws, is of a throwable kind
(a scheduling call), and is not wrapped in a try/catch. -/
def throwsUnder {α : Type} (throwable : α → Bool) (orc : α → Bool)
    (l : List (Emit α)) : Bool :=
  l.any (fun e => orc e.op && throwable e.op && !e.caught)

/-- `Math.min` on rationals. -/
def qmin (a b : ℚ) : ℚ := if a ≤ b then a else b

/-- `Math.max` on rationals. -/
def qmax (a b : ℚ) : ℚ := if a ≤ b then b else a

/-- A musical note: pitch class in semitones (C = 0, so G = 7, Bb = 10)
and octave; e.g. G2 is `⟨7, 2⟩`. -/
structure Note where
  pc : Nat
  oct : Nat
deriving DecidableEq

/-- Tone.js duration codes used by the SFX engine. -/
inductive NoteDur
  | n32 | n16 | n8 | n4 | n2 | n1 | m1
deriving DecidableEq

/-! ## Effect Chain (src/lib/audio/tone/EffectChain.ts) -/

/-- Parameters of the Effect Chain nodes targeted by the global controls. -/
inductive EcParam
  | masterVolume | reverbSendVolume | delaySendVolume | filterFrequency
deriving DecidableEq

/-- Engine calls issued by the Effect Chain. -/
inductive EcOp
  | rampTo (p : EcParam) (target durSec : ℚ)
  | linearRampTo (p : EcParam) (target durSec : ℚ)
  | setMuteFlag (muted : Bool)
  | disposeNode (n : Node)
deriving DecidableEq

/-- Scheduling calls (`rampTo`, `linearRampTo`) can throw in the engine;
a plain property assignment (`mute = …`) and `dispose()` cannot. -/
def EcOp.throwable : EcOp → Bool
  | .rampTo _ _ _ => true
  | .linearRampTo _ _ _ => true
  | .setMuteFlag _ => false
  | .disposeNode _ => false

/-- Whether an Effect Chain engine call is a time-bounded ramp
(a ramp with strictly positive duration). -/
def EcOp.isTimeBoundedRamp : EcOp → Bool
  | .rampTo _ _ d => decide (0 < d)
  | .linearRampTo _ _ d => decide (0 < d)
  | _ => false

/-- Duration of a ramp call, if the call is a ramp. -/
def EcOp.rampDuration : EcOp → Option ℚ
  | .rampTo _ _ d => some d
  | .linearRampTo _ _ d => some d
  | _ => none

/-- State of `EffectChainClass`: one nullable handle per owned node
(fields in source declaration order) plus the mute and init flags. -/
structure EffectState where
  masterChannel : Option Node
  masterLimiter : Option Node
  reverb : Option Node
  delay : Option Node
  warmFilter : Option Node
  reverbSend : Option Node
  delaySend : Option Node
  compressor : Option Node
  masterMute : Bool
  initialized : Bool
deriving DecidableEq

/-- The state right after construction: every handle is null. -/
def ecFresh : EffectState :=
  ⟨none, none, none, none, none, none, none, none, false, false⟩

/-- `EffectChainClass.init()`: idempotent; builds the mix bus in source
order (limiter, compressor, master channel, reverb, then — after the
asynchronous `reverb.generate()` — reverb send, delay, delay send, warm
filter).  `generateOk` models whether `await this.reverb.generate()`
completes; when it rejects, init aborts mid-way with only the earlier
fields assigned and `initialized` still false (the caller catches the
rejection). -/
def ecInit (s : EffectState) (generateOk : Bool) : EffectState :=
  if s.initialized then s
  else
    let s1 := { s with masterLimiter := some ⟨0, false⟩,
                       compressor := some ⟨1, false⟩,
                       masterChannel := some ⟨2, false⟩,
                       reverb := some ⟨3, false⟩ }
    if generateOk then
      { s1 with reverbSend := some ⟨4, false⟩,
                delay := some ⟨5, false⟩,
                delaySend := some ⟨6, false⟩,
                warmFilter := some ⟨7, false⟩,
                initialized := true }
    else s1

/-- `EffectChainClass.getMainInput()`: the warm filter handle or null. -/
def getMainInput (s : EffectState) : Option Node := s.warmFilter

/-- `EffectChainClass.getReverbSend()`. -/
def getReverbSend (s : EffectState) : Option Node := s.reverbSend

/-- `EffectChainClass.getDelaySend()`. -/
def getDelaySend (s : EffectState) : Option Node := s.delaySend

/-- `EffectChainClass.getMasterChannel()`. -/
def getMasterChannel (s : EffectState) : Option Node := s.masterChannel

/-- `EffectChainClass.setMasterVolume(db)`: if the master channel exists,
ramp its volume to `db` over 0.5 s. -/
def ecSetMasterVolume (s : EffectState) (db : ℚ) : List (Emit EcOp) :=
  match s.masterChannel with
  | some _ => [⟨.rampTo .masterVolume db 0.5, false⟩]
  | none => []

/-- `EffectChainClass.setMuted(muted)`: a plain `mute` property
assignment on the master channel — no ramp. -/
def ecSetMuted (s : EffectState) (muted : Bool) :
    EffectState × List (Emit EcOp) :=
  match s.masterChannel with
  | some _ => ({ s with masterMute := muted }, [⟨.setMuteFlag muted, false⟩])
  | none => (s, [])

/-- `EffectChainClass.setReverbMix(amount)`: ramp the reverb send volume
to `-60` dB (near-silent) for `amount ≤ 0.01`, else `-6 + (amount-1)*12`
dB, over 1 s. -/
def ecSetReverbMix (s : EffectState) (amount : ℚ) : List (Emit EcOp) :=
  match s.reverbSend with
  | some _ =>
      [⟨.rampTo .reverbSendVolume
          (if amount ≤ 0.01 then -60 else -6 + (amount - 1) * 12) 1, false⟩]
  | none => []

/-- `EffectChainClass.setDelayMix(amount)`: like the reverb mix, with a
`-9` dB base, over 1 s. -/
def ecSetDelayMix (s : EffectState) (amount : ℚ) : List (Emit EcOp) :=
  match s.delaySend with
  | some _ =>
      [⟨.rampTo .delaySendVolume
          (if amount ≤ 0.01 then -60 else -9 + (amount - 1) * 12) 1, false⟩]
  | none => []

/-- `EffectChainClass.setFilterFrequency(freq)`: clamp to 20–20000 Hz,
then ramp the warm filter cutoff there over 0.5 s. -/
def ecSetFilterFrequency (s : EffectState) (freq : ℚ) : List (Emit EcOp) :=
  match s.warmFilter with
  | some _ =>
      [⟨.rampTo .filterFrequency (qmax 20 (qmin 20000 freq)) 0.5, false⟩]
  | none => []

/-- `EffectChainClass.setUnderwaterMode(active)`: linear ramp of the warm
filter cutoff to 300 Hz (muffled) or back to 2500 Hz over 0.8 s. -/
def ecSetUnderwaterMode (s : EffectState) (active : Bool) : List (Emit EcOp) :=
  match s.warmFilter with
  | some _ =>
      [⟨.linearRampTo .filterFrequency (if active then 300 else 2500) 0.8, false⟩]
  | none => []

/-- Mark a node as disposed (its handle keeps the same `uid`). -/
def markDisposed (n : Node) : Node := { n with disposed := true }

/-- `EffectChainClass.dispose()`: `node?.dispose()` on every owned node;
the handle fields are not reset to null — the nodes are only marked
disposed — and `initialized` is cleared. -/
def ecDispose (s : EffectState) : EffectState × List (Emit EcOp) :=
  ({ masterChannel := s.masterChannel.map markDisposed,
     masterLimiter := s.masterLimiter.map markDisposed,
     reverb := s.reverb.map markDisposed,
     delay := s.delay.map markDisposed,
     warmFilter := s.warmFilter.map markDisposed,
     reverbSend := s.reverbSend.map markDisposed,
     delaySend := s.delaySend.map markDisposed,
     compressor := s.compressor.map markDisposed,
     masterMute := s.masterMute,
     initialized := false },
   ((s.masterChannel.toList ++ s.masterLimiter.toList ++ s.reverb.toList
       ++ s.delay.toList ++ s.warmFilter.toList ++ s.reverbSend.toList
       ++ s.delaySend.toList ++ s.compressor.toList).map
     (fun n => ⟨.disposeNode n, false⟩)))

/-- The Effect Chain state after a successful first `init()`. -/
def ecReady : EffectState := ecInit ecFresh true

/-- A list of Effect Chain calls that is one single time-bounded ramp
whose duration lies within `[lo, hi]` seconds. -/
def singleRampWithin (lo hi : ℚ) (l : List (Emit EcOp)) : Bool :=
  match l with
  | [e] =>
      e.op.isTimeBoundedRamp &&
        (match e.op.rampDuration with
         | some d => decide (lo ≤ d) && decide (d ≤ hi)
         | none => false)
  | _ => false

/-! ## Ambient Soundscape (src/lib/audio/tone/AmbientSoundscape.ts) -/

/-- The layers of the soundscape that own a gain (or the drone filter). -/
inductive AmbLayer
  | subL | droneL (i : Nat) | stringL | brassL | shimmerL | pulseL | filterL
deriving DecidableEq

/-- Engine calls issued by the Ambient Soundscape.  `setTimeout`-deferred
work is recorded as a `…Deferred` op: registering a timer cannot throw
in the registering call. -/
inductive AmbOp
  | gainLinearRampTo (l : AmbLayer) (target durSec : ℚ)
  | freqLinearRampTo (l : AmbLayer) (target durSec : ℚ)
  | oscFreqRampToNote (bass : Note) (durSec : ℚ)
  | oscStart
  | triggerAttack (l : AmbLayer) (notes : List Note) (timeOffsetSec : ℚ)
  | releaseAll (l : AmbLayer) (timeOffsetSec : ℚ)
  | releaseAllDeferred (l : AmbLayer) (delayMs : Nat)
  | oscStopDeferred (delayMs : Nat)
  | shimmerSparkleDeferred (delayMs : Nat)
  | loopStart
  | loopStop
  | loopStopDeferred (delayMs : Nat)
  | transportStart (bpm : ℚ)
  | chordTimerSchedule (delayMs : Nat)
  | clearChordTimer
  | swellRestoreDeferred (delayMs : ℚ)
  | disposeLayer (l : AmbLayer)
deriving DecidableEq

/-- Scheduling calls can throw; timer registration/clearing and node
disposal cannot. -/
def AmbOp.throwable : AmbOp → Bool
  | .gainLinearRampTo _ _ _ => true
  | .freqLinearRampTo _ _ _ => true
  | .oscFreqRampToNote _ _ => true
  | .oscStart => true
  | .triggerAttack _ _ _ => true
  | .releaseAll _ _ => true
  | .loopStart => true
  | .loopStop => true
  | .transportStart _ => true
  | _ => false

/-- One step of the cinematic chord progression (CHORD_PROGRESSION). -/
structure ChordStep where
  bass : Note
  organ : List Note
  strings : List Note
  brass : List Note
  shimmer : List Note
deriving DecidableEq

/-- CHORD_PROGRESSION: Am, F, C, G — bass / organ / strings / brass /
shimmer voicings (notes as pitch-class/octave pairs). -/
def chordProgression : List ChordStep :=
  [⟨⟨9, 1⟩, [⟨9, 2⟩, ⟨4, 3⟩, ⟨9, 3⟩], [⟨9, 3⟩, ⟨0, 4⟩, ⟨4, 4⟩, ⟨9, 4⟩],
      [⟨4, 4⟩, ⟨9, 4⟩], [⟨9, 5⟩, ⟨4, 6⟩]⟩,
   ⟨⟨5, 1⟩, [⟨5, 2⟩, ⟨0, 3⟩, ⟨5, 3⟩], [⟨5, 3⟩, ⟨9, 3⟩, ⟨0, 4⟩, ⟨5, 4⟩],
      [⟨0, 4⟩, ⟨5, 4⟩], [⟨5, 5⟩, ⟨0, 6⟩]⟩,
   ⟨⟨0, 2⟩, [⟨0, 2⟩, ⟨7, 2⟩, ⟨0, 3⟩], [⟨0, 3⟩, ⟨4, 3⟩, ⟨7, 3⟩, ⟨0, 4⟩],
      [⟨7, 3⟩, ⟨0, 4⟩], [⟨0, 5⟩, ⟨7, 5⟩]⟩,
   ⟨⟨7, 1⟩, [⟨7, 2⟩, ⟨2, 3⟩, ⟨7, 3⟩], [⟨7, 3⟩, ⟨11, 3⟩, ⟨2, 4⟩, ⟨7, 4⟩],
      [⟨2, 4⟩, ⟨7, 4⟩], [⟨7, 5⟩, ⟨2, 6⟩]⟩]

/-- Fallback chord for the total list lookup (never reached: every index
used is reduced mod 4). -/
def dfltChord : ChordStep := ⟨⟨9, 1⟩, [], [], [], []⟩

/-- State of `AmbientSoundscapeClass`.  The `…Gain` fields hold the most
recently scheduled ramp *target* of each layer's gain node; the pulse
loop flag is cleared by the deferred stop, which this step-level model
does not execute. -/
structure AmbState where
  initialized : Bool
  active : Bool
  invertedMode : Bool
  intensity : ℚ
  gameLevel : ℚ
  currentDroneIndex : Nat
  currentChordIndex : Nat
  subGain : ℚ
  droneGain0 : ℚ
  droneGain1 : ℚ
  droneGain2 : ℚ
  stringGain : ℚ
  brassGain : ℚ
  shimmerGain : ℚ
  pulseGain : ℚ
  droneFilterFreq : ℚ
  pulseLoopRunning : Bool
  chordTimerScheduled : Bool
deriving DecidableEq

/-- Gain target of drone layer `i` (the class keeps three drone synths). -/
def AmbState.droneGainAt (s : AmbState) (i : Nat) : ℚ :=
  if i = 0 then s.droneGain0 else if i = 1 then s.droneGain1 else s.droneGain2

/-- Write the gain target of drone layer `i`. -/
def setDroneGainAt (s : AmbState) (i : Nat) (v : ℚ) : AmbState :=
  if i = 0 then { s with droneGain0 := v }
  else if i = 1 then { s with droneGain1 := v }
  else { s with droneGain2 := v }

/-- The state right after construction (class field initializers):
intensity 0.5, gameLevel 1, everything else off/zero. -/
def ambFresh : AmbState :=
  { initialized := false, active := false, invertedMode := false,
    intensity := 0.5, gameLevel := 1, currentDroneIndex := 0,
    currentChordIndex := 0, subGain := 0, droneGain0 := 0, droneGain1 := 0,
    droneGain2 := 0, stringGain := 0, brassGain := 0, shimmerGain := 0,
    pulseGain := 0, droneFilterFreq := 600, pulseLoopRunning := false,
    chordTimerScheduled := false }

/-- `AmbientSoundscapeClass.init()` given the Effect Chain state: no-op
when already initialized or when any needed send handle is null; else
builds every voice with gain 0 and the drone filter at 600 Hz. -/
def ambInitStep (s : AmbState) (ec : EffectState) : AmbState :=
  if s.initialized then s
  else if (getMainInput ec).isNone ∨ (getReverbSend ec).isNone ∨
          (getDelaySend ec).isNone then s
  else
    { s with initialized := true, subGain := 0, droneGain0 := 0,
             droneGain1 := 0, droneGain2 := 0, stringGain := 0,
             brassGain := 0, shimmerGain := 0, pulseGain := 0,
             droneFilterFreq := 600 }

/-- The soundscape state after a successful `init()`. -/
def ambReady : AmbState := ambInitStep ambFresh ecReady

/-- The gain/filter targets `AmbientSoundscapeClass.setIntensity` derives
from a (clamped) intensity: sub, active drone ("organ"), string, brass,
shimmer levels plus the drone-filter cutoff. -/
structure AmbTargets where
  sub : ℚ
  organ : ℚ
  string : ℚ
  brass : ℚ
  shimmer : ℚ
  filterFreq : ℚ
deriving DecidableEq

/-- The intensity-derived targets (the five `…Level` locals and the
filter frequency computed in `setIntensity`). -/
def ambIntensityTargets (ii : ℚ) : AmbTargets :=
  { sub := 0.08 + ii * 0.1,
    organ := 0.04 + ii * 0.06,
    string := 0.03 + ii * 0.06,
    brass := if 0.5 < ii then 0.01 + (ii - 0.5) * 0.06 else 0.001,
    shimmer := 0.02 + ii * 0.05,
    filterFreq := 400 + ii * 800 }

/-- The currently applied intensity-layer targets of a state (the drone
layer is represented by the active drone, the only one `setIntensity`
adjusts). -/
def AmbState.layerTargets (s : AmbState) : AmbTargets :=
  { sub := s.subGain, organ := s.droneGainAt s.currentDroneIndex,
    string := s.stringGain, brass := s.brassGain, shimmer := s.shimmerGain,
    filterFreq := s.droneFilterFreq }

/-- `AmbientSoundscapeClass.setIntensity(value)`: the clamped intensity
is stored first; the gain/filter targets are re-ramped (2 s ramps) only
when initialized and active, and only the active drone is adjusted. -/
def ambSetIntensity (s : AmbState) (value : ℚ) :
    AmbState × List (Emit AmbOp) :=
  let ii := qmax 0.1 (qmin 1 value)
  let s1 := { s with intensity := ii }
  if ¬ s1.initialized ∨ ¬ s1.active then (s1, [])
  else
    let t := ambIntensityTargets ii
    let s2 := setDroneGainAt
      { s1 with subGain := t.sub, stringGain := t.string, brassGain := t.brass,
                shimmerGain := t.shimmer, droneFilterFreq := t.filterFreq }
      s1.currentDroneIndex t.organ
    (s2, [⟨.gainLinearRampTo .subL t.sub 2, false⟩,
          ⟨.gainLinearRampTo (.droneL s1.currentDroneIndex) t.organ 2, false⟩,
          ⟨.gainLinearRampTo .stringL t.string 2, false⟩,
          ⟨.gainLinearRampTo .brassL t.brass 2, false⟩,
          ⟨.gainLinearRampTo .shimmerL t.shimmer 2, false⟩,
          ⟨.freqLinearRampTo .filterL t.filterFreq 2, false⟩])

/-- `AmbientSoundscapeClass.setGameLevel(level)`: clamp to 1–10, store,
and map to an intensity `0.3 + (level/10)*0.6` via `setIntensity`. -/
def ambSetGameLevel (s : AmbState) (level : ℚ) :
    AmbState × List (Emit AmbOp) :=
  let lvl := qmax 1 (qmin 10 level)
  ambSetIntensity { s with gameLevel := lvl } (0.3 + lvl / 10 * 0.6)

/-- `AmbientSoundscapeClass.playChord(index)` (private): rotates the
drone instrument, crossfades the drones, retriggers strings (and brass
when the intensity is above 0.4), and schedules the shimmer sparkle. -/
def ambPlayChord (s : AmbState) (index : Nat) :
    AmbState × List (Emit AmbOp) :=
  if ¬ s.active then (s, [])
  else
    let chord := chordProgression.getD (index % 4) dfltChord
    let prevDrone := s.currentDroneIndex
    let newIdx := (s.currentDroneIndex + 1) % 3
    let s1 := { s with currentDroneIndex := newIdx }
    let s2 := setDroneGainAt (setDroneGainAt s1 prevDrone 0.0001) newIdx 0.06
    (s2,
      [⟨.oscFreqRampToNote chord.bass 2, false⟩,
       ⟨.gainLinearRampTo (.droneL prevDrone) 0.0001 5, false⟩,
       ⟨.releaseAllDeferred (.droneL prevDrone) 5000, false⟩,
       ⟨.triggerAttack (.droneL newIdx) chord.organ 1, false⟩,
       ⟨.gainLinearRampTo (.droneL newIdx) 0.06 5, false⟩,
       ⟨.releaseAll .stringL 0, false⟩,
       ⟨.triggerAttack .stringL chord.strings 0.3, false⟩]
      ++ (if 0.4 < s.intensity then
            [⟨.releaseAll .brassL 0, false⟩,
             ⟨.triggerAttack .brassL chord.brass 1, false⟩]
          else [])
      ++ [⟨.shimmerSparkleDeferred 2000, false⟩])

/-- `AmbientSoundscapeClass.start()`: idempotent; ramps every layer to
its fixed fade-in target (sub 0.12 over 4 s, first drone 0.06 over 6 s,
strings 0.05 over 8 s, brass 0.02 over 10 s, shimmer 0.04 over 12 s),
plays chord 0, schedules the progression timer, starts the transport. -/
def ambStart (s : AmbState) : AmbState × List (Emit AmbOp) :=
  if ¬ s.initialized ∨ s.active then (s, [])
  else
    let s1 := { s with active := true, currentDroneIndex := 0,
                       subGain := 0.12, droneGain0 := 0.06, stringGain := 0.05,
                       brassGain := 0.02, shimmerGain := 0.04 }
    let r := ambPlayChord s1 0
    ({ r.1 with chordTimerScheduled := true },
     [⟨.oscStart, false⟩,
      ⟨.gainLinearRampTo .subL 0.12 4, false⟩,
      ⟨.gainLinearRampTo (.droneL 0) 0.06 6, false⟩,
      ⟨.gainLinearRampTo .stringL 0.05 8, false⟩,
      ⟨.gainLinearRampTo .brassL 0.02 10, false⟩,
      ⟨.gainLinearRampTo .shimmerL 0.04 12, false⟩]
     ++ r.2
     ++ [⟨.chordTimerSchedule 14000, false⟩, ⟨.transportStart 60, false⟩])

/-- `AmbientSoundscapeClass.stop()`: clears the chord timer, stops the
pulse, ramps every layer to 0.0001 over 6 s and defers the physical
release of each voice to after the fade. -/
def ambStop (s : AmbState) : AmbState × List (Emit AmbOp) :=
  if ¬ s.initialized ∨ ¬ s.active then (s, [])
  else
    ({ s with active := false, chordTimerScheduled := false,
              pulseLoopRunning := false, pulseGain := 0.0001,
              invertedMode := false, subGain := 0.0001, droneGain0 := 0.0001,
              droneGain1 := 0.0001, droneGain2 := 0.0001,
              stringGain := 0.0001, brassGain := 0.0001,
              shimmerGain := 0.0001 },
     [⟨.clearChordTimer, false⟩, ⟨.loopStop, false⟩,
      ⟨.gainLinearRampTo .pulseL 0.0001 0.5, false⟩,
      ⟨.gainLinearRampTo .subL 0.0001 6, false⟩,
      ⟨.gainLinearRampTo (.droneL 0) 0.0001 6, false⟩,
      ⟨.gainLinearRampTo (.droneL 1) 0.0001 6, false⟩,
      ⟨.gainLinearRampTo (.droneL 2) 0.0001 6, false⟩,
      ⟨.gainLinearRampTo .stringL 0.0001 6, false⟩,
      ⟨.gainLinearRampTo .brassL 0.0001 6, false⟩,
      ⟨.gainLinearRampTo .shimmerL 0.0001 6, false⟩,
      ⟨.oscStopDeferred 6000, false⟩,
      ⟨.releaseAllDeferred (.droneL 0) 6000, false⟩,
      ⟨.releaseAllDeferred (.droneL 1) 6000, false⟩,
      ⟨.releaseAllDeferred (.droneL 2) 6000, false⟩,
      ⟨.releaseAllDeferred .stringL 6000, false⟩,
      ⟨.releaseAllDeferred .brassL 6000, false⟩,
      ⟨.releaseAllDeferred .shimmerL 6000, false⟩])

/-- `AmbientSoundscapeClass.setInvertedMode(active)`: on `true`, starts
the heartbeat pulse and dampens the melodic layers to fixed low targets;
on `false`, fades the pulse out (its loop is stopped by a deferred
timer) and restores the layer targets by calling `setIntensity` with the
remembered intensity. -/
def ambSetInvertedMode (s : AmbState) (active : Bool) :
    AmbState × List (Emit AmbOp) :=
  if ¬ s.initialized ∨ ¬ s.active then (s, [])
  else
    let s1 := { s with invertedMode := active }
    if active then
      ({ s1 with pulseGain := 0.55, pulseLoopRunning := true,
                 droneGain0 := 0.02, droneGain1 := 0.02, droneGain2 := 0.02,
                 stringGain := 0.015, brassGain := 0.0001,
                 shimmerGain := 0.0001, subGain := 0.5 },
       [⟨.gainLinearRampTo .pulseL 0.55 0.2, false⟩,
        ⟨.loopStart, false⟩,
        ⟨.gainLinearRampTo (.droneL 0) 0.02 0.8, false⟩,
        ⟨.gainLinearRampTo (.droneL 1) 0.02 0.8, false⟩,
        ⟨.gainLinearRampTo (.droneL 2) 0.02 0.8, false⟩,
        ⟨.gainLinearRampTo .stringL 0.015 0.8, false⟩,
        ⟨.gainLinearRampTo .brassL 0.0001 0.3, false⟩,
        ⟨.gainLinearRampTo .shimmerL 0.0001 0.3, false⟩,
        ⟨.gainLinearRampTo .subL 0.5 0.2, false⟩])
    else
      let r := ambSetIntensity { s1 with pulseGain := 0.0001 } s1.intensity
      (r.1, [⟨.gainLinearRampTo .pulseL 0.0001 1.5, false⟩,
             ⟨.loopStopDeferred 1500, false⟩] ++ r.2)

/-- `AmbientSoundscapeClass.swell(duration)`: skipped entirely while
inverted; else a crescendo via `setIntensity(min 1 (intensity + 0.4))`,
a brass swell, a filter sweep, and a deferred return to the original
intensity. -/
def ambSwell (s : AmbState) (duration : ℚ) : AmbState × List (Emit AmbOp) :=
  if ¬ s.initialized ∨ ¬ s.active then (s, [])
  else if s.invertedMode then (s, [])
  else
    let r := ambSetIntensity s (qmin 1 (s.intensity + 0.4))
    let chord := chordProgression.getD (s.currentChordIndex % 4) dfltChord
    ({ r.1 with brassGain := 0.15 },
     r.2 ++ [⟨.gainLinearRampTo .brassL 0.15 (duration * 0.3), false⟩,
             ⟨.triggerAttack .brassL chord.brass 0, false⟩,
             ⟨.freqLinearRampTo .filterL 3000 (duration * 0.4), false⟩,
             ⟨.swellRestoreDeferred (duration * 1000), false⟩])

/-- `AmbientSoundscapeClass.dispose()`: `stop()`, clear the timer,
dispose every node, clear the flags; safe if never started. -/
def ambDispose (s : AmbState) : AmbState × List (Emit AmbOp) :=
  let r := ambStop s
  ({ r.1 with initialized := false, active := false,
              chordTimerScheduled := false },
   r.2 ++ [⟨.clearChordTimer, false⟩,
           ⟨.disposeLayer .subL, false⟩, ⟨.disposeLayer (.droneL 0), false⟩,
           ⟨.disposeLayer (.droneL 1), false⟩, ⟨.disposeLayer (.droneL 2), false⟩,
           ⟨.disposeLayer .filterL, false⟩, ⟨.disposeLayer .stringL, false⟩,
           ⟨.disposeLayer .brassL, false⟩, ⟨.disposeLayer .shimmerL, false⟩,
           ⟨.disposeLayer .pulseL, false⟩])

/-! ## SFX engine (the "Cinematic" variant of part_005, the one the src
orchestrator pairs with) -/

/-- The voices owned by the SFX engine. -/
inductive SfxVoice
  | melodicS | subS | harmonicS | noiseS | crackleS | attractS
deriving DecidableEq

/-- The gain nodes owned by the SFX engine. -/
inductive SfxGainNode
  | melodicG | subG | harmonicG | noiseG | crackleG | attractG
deriving DecidableEq

/-- The filters owned by the SFX engine. -/
inductive SfxFilterNode
  | noiseF | crackleF | attractF
deriving DecidableEq

/-- Engine calls issued by the SFX engine.  Time offsets are seconds
relative to the `Tone.now()` reference taken once per method. -/
inductive SfxOp
  | triggerAttackRelease (v : SfxVoice) (notes : List Note) (d : NoteDur)
      (timeOffsetSec velocity : ℚ)
  | noiseAttackRelease (d : NoteDur) (timeOffsetSec : ℚ)
  | triggerRelease (v : SfxVoice) (timeOffsetSec : ℚ)
  | noiseAttack (v : SfxVoice)
  | synthAttack (v : SfxVoice) (notes : List Note)
  | filterSetValueAtTime (f : SfxFilterNode) (freq timeOffsetSec : ℚ)
  | filterRampTo (f : SfxFilterNode) (freq durSec : ℚ)
  | filterExpRampTo (f : SfxFilterNode) (freq durSec : ℚ)
  | filterLinearRampTo (f : SfxFilterNode) (freq durSec : ℚ)
  | filterQLinearRampTo (f : SfxFilterNode) (q durSec : ℚ)
  | gainLinearRampTo (g : SfxGainNode) (target durSec : ℚ)
  | lfoStart
  | lfoStop
  | lfoSetFreqAtTime (f : ℚ)
  | lfoFreqLinearRampTo (f durSec : ℚ)
  | vibratoFreqLinearRampTo (f durSec : ℚ)
  | deferredCrackleStop (delayMs : Nat)
  | deferredAttractStop (delayMs : Nat)
deriving DecidableEq

/-- Scheduling calls can throw; registering a `setTimeout` cannot. -/
def SfxOp.throwable : SfxOp → Bool
  | .deferredCrackleStop _ => false
  | .deferredAttractStop _ => false
  | _ => true

/-- An op that starts (attacks) a continuous voice or starts its LFO —
what a texture setter must never emit while the texture is active. -/
def startsVoice : SfxOp → Bool
  | .noiseAttack _ => true
  | .synthAttack _ _ => true
  | .lfoStart => true
  | _ => false

/-- An op that stops or releases a continuous voice (directly or via a
deferred timeout). -/
def stopsVoice : SfxOp → Bool
  | .deferredCrackleStop _ => true
  | .deferredAttractStop _ => true
  | .triggerRelease _ _ => true
  | .lfoStop => true
  | _ => false

/-- NOTES.collectScale (cinematic constants): G4 Bb4 C5 D5 F5 G5. -/
def collectScale : List Note := [⟨7, 4⟩, ⟨10, 4⟩, ⟨0, 5⟩, ⟨2, 5⟩, ⟨5, 5⟩, ⟨7, 5⟩]

/-- NOTES.droneFifths: G1 D2 G2 D3. -/
def droneFifths : List Note := [⟨7, 1⟩, ⟨2, 2⟩, ⟨7, 2⟩, ⟨2, 3⟩]

/-- NOTES.levelUpChord: G3 D4 G4 Bb4 D5 G5. -/
def levelUpChord : List Note := [⟨7, 3⟩, ⟨2, 4⟩, ⟨7, 4⟩, ⟨10, 4⟩, ⟨2, 5⟩, ⟨7, 5⟩]

/-- NOTES.maxStackChord: G2 D3 Bb3 F3 D4 G4 D5. -/
def maxStackChord : List Note :=
  [⟨7, 2⟩, ⟨2, 3⟩, ⟨10, 3⟩, ⟨5, 3⟩, ⟨2, 4⟩, ⟨7, 4⟩, ⟨2, 5⟩]

/-- NOTES.chamberScale: G5 D6 G6 D7 G7. -/
def chamberScale : List Note := [⟨7, 5⟩, ⟨2, 6⟩, ⟨7, 6⟩, ⟨2, 7⟩, ⟨7, 7⟩]

/-- NOTES.bridgeChord: G3 D4 G4 Bb4 D5. -/
def bridgeChord : List Note := [⟨7, 3⟩, ⟨2, 4⟩, ⟨7, 4⟩, ⟨10, 4⟩, ⟨2, 5⟩]

/-- NOTES.completeArpeggio: G4 Bb4 D5 G5. -/
def completeArpeggio : List Note := [⟨7, 4⟩, ⟨10, 4⟩, ⟨2, 5⟩, ⟨7, 5⟩]

/-- NOTES.celestial: G5 D6 G6 D7. -/
def celestialNotes : List Note := [⟨7, 5⟩, ⟨2, 6⟩, ⟨7, 6⟩, ⟨2, 7⟩]

/-- The `note.replace(/\d/, m => min(7, m+1))` octave bump used for the
harmonic shimmer layers. -/
def octaveUpCapped (n : Note) : Note := ⟨n.pc, min 7 (n.oct + 1)⟩

/-- The optional parameters of an SFX trigger (interface SFXParams). -/
structure SFXParams where
  pitch : Option Nat
  level : Option ℚ
  count : Option Nat
  velocity : Option ℚ
deriving DecidableEq

/-- `{}` — no parameters given. -/
def noParams : SFXParams := ⟨none, none, none, none⟩

/-- State of `SFXEngineClass` (variant A): one presence flag per
nullable synth/filter/LFO/gain field (the fields are all assigned
together by `init()` and never reset), the three continuous-texture
flags, and the collect-combo bookkeeping. -/
structure SfxState where
  initialized : Bool
  melodicSynth : Bool
  subSynth : Bool
  harmonicSynth : Bool
  noiseSynth : Bool
  noiseFilter : Bool
  crackleNoise : Bool
  crackleFilter : Bool
  crackleLFO : Bool
  crackleGain : Bool
  attractSynth : Bool
  attractVibrato : Bool
  attractFilter : Bool
  attractGain : Bool
  crackleActive : Bool
  attractActive : Bool
  spiralSuctionActive : Bool
  collectCombo : Nat
  lastCollectTime : Nat
deriving DecidableEq

/-- The state right after construction: everything null/false/0. -/
def sfxFresh : SfxState :=
  ⟨false, false, false, false, false, false, false, false, false, false,
   false, false, false, false, false, false, false, 0, 0⟩

/-- `SFXEngineClass.init()` given the Effect Chain state: no-op when
already initialized or when a needed send handle is null; else builds
every voice and support node. -/
def sfxInitStep (s : SfxState) (ec : EffectState) : SfxState :=
  if s.initialized then s
  else if (getMainInput ec).isNone ∨ (getReverbSend ec).isNone ∨
          (getDelaySend ec).isNone then s
  else
    { s with initialized := true, melodicSynth := true, subSynth := true,
             harmonicSynth := true, noiseSynth := true, noiseFilter := true,
             crackleNoise := true, crackleFilter := true, crackleLFO := true,
             crackleGain := true, attractSynth := true, attractVibrato := true,
             attractFilter := true, attractGain := true }

/-- The SFX engine state after a successful `init()`. -/
def sfxReady : SfxState := sfxInitStep sfxFresh ecReady

/-- Combo update of `playCollect`: a gap under 300 ms since the last
call increments the counter, capped at 10; otherwise it resets to 0
(JS `Date.now()` differences are modelled with truncated Nat
subtraction, which agrees with the `< 300` test). -/
def comboAfter (s : SfxState) (nowMs : Nat) : Nat :=
  if nowMs - s.lastCollectTime < 300 then min 10 (s.collectCombo + 1) else 0

/-- The combo-derived velocity of `playCollect`:
`min(0.5, base · (1 + combo·0.05))`. -/
def collectVelocity (base : ℚ) (combo : Nat) : ℚ :=
  qmin 0.5 (base * (1 + (combo : ℚ) * 0.05))

/-- `SFXEngineClass.playCollect(params)` (variant A): combo tracking, a
soft melodic ping, a sub layer only at combo ≥ 5 (without a preceding
release), and a harmonic shimmer at combo ≥ 6. -/
def sfxPlayCollect (s : SfxState) (params : SFXParams) (nowMs : Nat) :
    SfxState × List (Emit SfxOp) :=
  if ¬ s.initialized ∨ ¬ s.melodicSynth then (s, [])
  else
    let combo := comboAfter s nowMs
    let s1 := { s with collectCombo := combo, lastCollectTime := nowMs }
    let pitch := params.pitch.getD 0
    let velocity := collectVelocity (params.velocity.getD 0.25) combo
    let noteIndex := min (pitch + combo / 3) (collectScale.length - 1)
    let note := collectScale.getD noteIndex ⟨7, 4⟩
    (s1,
      [⟨.triggerAttackRelease .melodicS [note] .n32 0 (velocity * 0.6), false⟩]
      ++ (if s.subSynth ∧ 5 ≤ combo then
            [⟨.triggerAttackRelease .subS [⟨7, 2⟩] .n32 0 (velocity * 0.15), false⟩]
          else [])
      ++ (if s.harmonicSynth ∧ 6 ≤ combo then
            [⟨.triggerAttackRelease .harmonicS [octaveUpCapped note] .n32 0.01
                (velocity * 0.2), false⟩]
          else []))

/-- `SFXEngineClass.playSuperStarCollect()`. -/
def sfxPlaySuperStarCollect (s : SfxState) : SfxState × List (Emit SfxOp) :=
  if ¬ s.initialized ∨ ¬ s.melodicSynth then (s, [])
  else
    (s, [⟨.triggerAttackRelease .melodicS [⟨7, 5⟩] .n8 0 0.28, false⟩,
         ⟨.triggerAttackRelease .melodicS [⟨2, 5⟩] .n8 0.015 0.22, false⟩]
      ++ (if s.harmonicSynth then
            [⟨.triggerAttackRelease .harmonicS [⟨7, 6⟩] .n4 0.04 0.12, false⟩]
          else []))

/-- `SFXEngineClass.playRejectDischarge()`: the sub layer is released
(inside a try/catch) before its re-attack. -/
def sfxPlayRejectDischarge (s : SfxState) : SfxState × List (Emit SfxOp) :=
  if ¬ s.initialized then (s, [])
  else
    (s, (if s.subSynth then
          [⟨.triggerRelease .subS 0, true⟩,
           ⟨.triggerAttackRelease .subS [⟨2, 2⟩] .n8 0 0.35, false⟩]
         else [])
      ++ (if s.melodicSynth then
            [⟨.triggerAttackRelease .melodicS [⟨7, 3⟩] .n16 0.02 0.2, false⟩]
          else [])
      ++ (if s.noiseFilter ∧ s.noiseSynth then
            [⟨.filterSetValueAtTime .noiseF 300 0, false⟩,
             ⟨.filterRampTo .noiseF 100 0.15, false⟩,
             ⟨.noiseAttackRelease .n32 0.01, false⟩]
          else []))

/-- `SFXEngineClass.playSpiralSpawn()`. -/
def sfxPlaySpiralSpawn (s : SfxState) : SfxState × List (Emit SfxOp) :=
  if ¬ s.initialized then (s, [])
  else
    (s, (if s.subSynth then
          [⟨.triggerRelease .subS 0, true⟩,
           ⟨.triggerAttackRelease .subS [⟨2, 1⟩] .n2 0.05 0.5, false⟩]
         else [])
      ++ (if s.melodicSynth then
            [⟨.triggerAttackRelease .melodicS [⟨2, 2⟩, ⟨3, 2⟩] .n4 0.1 0.3, false⟩]
          else [])
      ++ (if s.harmonicSynth then
            [⟨.triggerAttackRelease .harmonicS [⟨2, 4⟩] .n8 0.15 0.25, false⟩,
             ⟨.triggerAttackRelease .harmonicS [⟨0, 4⟩] .n8 0.3 0.2, false⟩]
          else []))

/-- `SFXEngineClass.playSpiralDefeat()`. -/
def sfxPlaySpiralDefeat (s : SfxState) : SfxState × List (Emit SfxOp) :=
  if ¬ s.initialized then (s, [])
  else
    (s, (if s.noiseFilter ∧ s.noiseSynth then
          [⟨.filterSetValueAtTime .noiseF 400 0.05, false⟩,
           ⟨.filterExpRampTo .noiseF 2000 0.3, false⟩,
           ⟨.filterExpRampTo .noiseF 100 0.5, false⟩,
           ⟨.noiseAttackRelease .n4 0.05, false⟩]
         else [])
      ++ (if s.melodicSynth then
            [⟨.triggerAttackRelease .melodicS [⟨7, 3⟩, ⟨2, 4⟩] .n4 0.1 0.4, false⟩]
          else [])
      ++ (if s.harmonicSynth then
            [⟨.triggerAttackRelease .harmonicS [⟨7, 5⟩] .n2 0.2 0.25, false⟩]
          else []))

/-- `SFXEngineClass.playSpiralDamage()`. -/
def sfxPlaySpiralDamage (s : SfxState) : SfxState × List (Emit SfxOp) :=
  if ¬ s.initialized then (s, [])
  else
    (s, (if s.subSynth then
          [⟨.triggerRelease .subS 0, true⟩,
           ⟨.triggerAttackRelease .subS [⟨9, 1⟩] .n4 0.05 0.8, false⟩]
         else [])
      ++ (if s.melodicSynth then
            [⟨.triggerAttackRelease .melodicS [⟨9, 2⟩, ⟨10, 2⟩, ⟨4, 3⟩] .n8
                0.08 0.6, false⟩]
          else [])
      ++ (if s.noiseFilter ∧ s.noiseSynth then
            [⟨.filterSetValueAtTime .noiseF 1500 0.05, false⟩,
             ⟨.filterExpRampTo .noiseF 80 0.4, false⟩,
             ⟨.noiseAttackRelease .n8 0.05, false⟩]
          else []))

/-- `SFXEngineClass.playRedHeartCapture()`. -/
def sfxPlayRedHeartCapture (s : SfxState) : SfxState × List (Emit SfxOp) :=
  if ¬ s.initialized then (s, [])
  else
    (s, (if s.subSynth then
          [⟨.triggerRelease .subS 0, true⟩,
           ⟨.triggerAttackRelease .subS [⟨2, 2⟩] .n4 0.05 0.7, false⟩]
         else [])
      ++ (if s.melodicSynth then
            [⟨.triggerAttackRelease .melodicS [⟨2, 3⟩, ⟨6, 3⟩, ⟨9, 3⟩] .n4
                0.08 0.5, false⟩]
          else [])
      ++ (if s.harmonicSynth then
            [⟨.triggerAttackRelease .harmonicS [⟨2, 5⟩] .n4 0.12 0.35, false⟩,
             ⟨.triggerAttackRelease .harmonicS [⟨9, 5⟩] .n2 0.18 0.25, false⟩,
             ⟨.triggerAttackRelease .harmonicS [⟨4, 6⟩] .n2 0.25 0.15, false⟩]
          else [])
      ++ (if s.noiseFilter ∧ s.noiseSynth then
            [⟨.filterSetValueAtTime .noiseF 1200 0.1, false⟩,
             ⟨.filterExpRampTo .noiseF 300 0.5, false⟩,
             ⟨.noiseAttackRelease .n16 0.1, false⟩]
          else []))

/-- `SFXEngineClass.playModalEnter()`. -/
def sfxPlayModalEnter (s : SfxState) : SfxState × List (Emit SfxOp) :=
  if ¬ s.initialized then (s, [])
  else
    (s, (if s.melodicSynth then
          [⟨.triggerAttackRelease .melodicS [⟨2, 5⟩] .n4 0 0.4, false⟩,
           ⟨.triggerAttackRelease .melodicS [⟨7, 5⟩] .n4 0.08 0.3, false⟩]
         else [])
      ++ (if s.harmonicSynth then
            [⟨.triggerAttackRelease .harmonicS [⟨2, 6⟩] .n2 0.1 0.2, false⟩]
          else []))

/-- `SFXEngineClass.playModalClose()`. -/
def sfxPlayModalClose (s : SfxState) : SfxState × List (Emit SfxOp) :=
  if ¬ s.initialized ∨ ¬ s.melodicSynth then (s, [])
  else
    (s, [⟨.triggerAttackRelease .melodicS [⟨2, 5⟩] .n8 0 0.3, false⟩,
         ⟨.triggerAttackRelease .melodicS [⟨7, 4⟩] .n8 0.1 0.25, false⟩])

/-- `SFXEngineClass.playChamberCapture(params)`. -/
def sfxPlayChamberCapture (s : SfxState) (params : SFXParams) :
    SfxState × List (Emit SfxOp) :=
  if ¬ s.initialized ∨ ¬ s.melodicSynth then (s, [])
  else
    let count := params.count.getD 1
    let note := chamberScale.getD (min (count - 1) (chamberScale.length - 1)) ⟨7, 5⟩
    let velocity := 0.35 + (count : ℚ) / 5 * 0.25
    (s, [⟨.triggerAttackRelease .melodicS [note] .n8 0 velocity, false⟩]
      ++ (if 3 ≤ count ∧ s.harmonicSynth then
            [⟨.triggerAttackRelease .harmonicS [octaveUpCapped note] .n8 0.03
                (velocity * 0.4), false⟩]
          else []))

/-- `SFXEngineClass.playCollectionComplete()`. -/
def sfxPlayCollectionComplete (s : SfxState) : SfxState × List (Emit SfxOp) :=
  if ¬ s.initialized ∨ ¬ s.melodicSynth then (s, [])
  else
    (s, completeArpeggio.enum.map (fun p =>
          (⟨.triggerAttackRelease .melodicS [p.2] .n4 ((p.1 : ℚ) * 0.12) 0.6,
            false⟩ : Emit SfxOp))
      ++ (if s.harmonicSynth then
            [⟨.triggerAttackRelease .harmonicS [⟨7, 6⟩] .n2 0.4 0.3, false⟩]
          else []))

/-- Result of an SFX method that also calls into the Ambient Soundscape
(`swell` / `setGameLevel`): both updated states plus the two op streams. -/
structure SfxAmbResult where
  sfx : SfxState
  amb : AmbState
  sfxOps : List (Emit SfxOp)
  ambOps : List (Emit AmbOp)
deriving DecidableEq

/-- `SFXEngineClass.playCapture(params)`: sub release (in try/catch)
then re-attack, harmonic chord, noise texture (whole block in
try/catch), then `AmbientSoundscape.swell(1.5)`. -/
def sfxPlayCapture (s : SfxState) (amb : AmbState) (params : SFXParams) :
    SfxAmbResult :=
  if ¬ s.initialized then ⟨s, amb, [], []⟩
  else
    let velocity := params.velocity.getD 0.8
    let r := ambSwell amb 1.5
    ⟨s, r.1,
     (if s.subSynth then
        [⟨.triggerRelease .subS 0, true⟩,
         ⟨.triggerAttackRelease .subS [⟨7, 2⟩] .n4 0.01 velocity, false⟩]
      else [])
     ++ (if s.melodicSynth then
           [⟨.triggerAttackRelease .melodicS [⟨7, 3⟩, ⟨2, 4⟩] .n4 0.03
               (velocity * 0.5), false⟩]
         else [])
     ++ (if s.noiseFilter ∧ s.noiseSynth then
           [⟨.filterSetValueAtTime .noiseF 800 0.01, true⟩,
            ⟨.filterRampTo .noiseF 200 0.3, true⟩,
            ⟨.noiseAttackRelease .n8 0.02, true⟩]
         else []),
     r.2⟩

/-- `SFXEngineClass.playDischarge(params)`: sub release (in try/catch)
then re-attack, a rising chord whose voice count grows with the level,
shimmer, a noise sweep, then `AmbientSoundscape.swell(2.5)`. -/
def sfxPlayDischarge (s : SfxState) (amb : AmbState) (params : SFXParams) :
    SfxAmbResult :=
  if ¬ s.initialized then ⟨s, amb, [], []⟩
  else
    let level := params.level.getD 1
    let velocity := 0.6 + level / 10 * 0.4
    let notes := droneFifths.take (2 + (⌊level / 3⌋).toNat)
    let r := ambSwell amb 2.5
    ⟨s, r.1,
     (if s.subSynth then
        [⟨.triggerRelease .subS 0, true⟩,
         ⟨.triggerAttackRelease .subS [⟨7, 1⟩] .n2 0.01 velocity, false⟩]
      else [])
     ++ (if s.melodicSynth then
           [⟨.triggerAttackRelease .melodicS notes .n2 0.05 (velocity * 0.6), false⟩]
         else [])
     ++ (if s.harmonicSynth then
           [⟨.triggerAttackRelease .harmonicS [⟨7, 5⟩, ⟨2, 6⟩] .n1 0.1
               (velocity * 0.3), false⟩]
         else [])
     ++ (if s.noiseFilter ∧ s.noiseSynth then
           [⟨.filterSetValueAtTime .noiseF 100 0, false⟩,
            ⟨.filterExpRampTo .noiseF 3000 0.3, false⟩,
            ⟨.filterExpRampTo .noiseF 200 0.8, false⟩,
            ⟨.noiseAttackRelease .n4 0, false⟩]
         else []),
     r.2⟩

/-- `SFXEngineClass.playLevelUp(params)`: ascending chord tones at
strictly increasing offsets, then the sub layer — attacked at a later
offset but with no preceding release — then shimmer, then
`AmbientSoundscape.setGameLevel(level)`. -/
def sfxPlayLevelUp (s : SfxState) (amb : AmbState) (params : SFXParams) :
    SfxAmbResult :=
  if ¬ s.initialized ∨ ¬ s.melodicSynth then ⟨s, amb, [], []⟩
  else
    let level := params.level.getD 1
    let velocity := 0.5 + level / 10 * 0.3
    let chordNotes := levelUpChord.take (3 + (⌊level / 3⌋).toNat)
    let afterChord := 0.08 * (chordNotes.length : ℚ)
    let r := ambSetGameLevel amb level
    ⟨s, r.1,
     chordNotes.enum.map (fun p =>
        (⟨.triggerAttackRelease .melodicS [p.2] .n1 (0.08 * (p.1 : ℚ)) velocity,
          false⟩ : Emit SfxOp))
     ++ (if s.subSynth then
           [⟨.triggerAttackRelease .subS [⟨7, 2⟩] .n1 afterChord
               (velocity * 0.8), false⟩]
         else [])
     ++ (if s.harmonicSynth then
           [⟨.triggerAttackRelease .harmonicS [⟨7, 5⟩, ⟨2, 6⟩] .n1
               (afterChord + 0.15) (velocity * 0.4), false⟩]
         else []),
     r.2⟩

/-- `SFXEngineClass.playMaxStack()`: massive chord at strictly
increasing offsets, sub released (in try/catch) then re-attacked,
shimmer cascade, noise impact (in try/catch), `swell(4)` and
`setGameLevel(10)`. -/
def sfxPlayMaxStack (s : SfxState) (amb : AmbState) : SfxAmbResult :=
  if ¬ s.initialized then ⟨s, amb, [], []⟩
  else
    let t₁ := if s.melodicSynth then 0.01 + 0.06 * (maxStackChord.length : ℚ)
              else 0.01
    let t₂ := if s.subSynth then t₁ + 0.1 else t₁
    let r₁ := ambSwell amb 4
    let r₂ := ambSetGameLevel r₁.1 10
    ⟨s, r₂.1,
     (if s.melodicSynth then
        maxStackChord.enum.map (fun p =>
          (⟨.triggerAttackRelease .melodicS [p.2] .m1
              (0.01 + 0.06 * (p.1 : ℚ)) 0.7, false⟩ : Emit SfxOp))
      else [])
     ++ (if s.subSynth then
           [⟨.triggerRelease .subS 0, true⟩,
            ⟨.triggerAttackRelease .subS [⟨7, 1⟩] .m1 t₁ 0.9, false⟩]
         else [])
     ++ (if s.harmonicSynth then
           celestialNotes.enum.map (fun p =>
             (⟨.triggerAttackRelease .harmonicS [p.2] .n2
                 (t₂ + 0.15 * (p.1 : ℚ)) 0.4, false⟩ : Emit SfxOp))
         else [])
     ++ (if s.noiseFilter ∧ s.noiseSynth then
           [⟨.filterSetValueAtTime .noiseF 200 0.01, true⟩,
            ⟨.filterExpRampTo .noiseF 4000 0.5, true⟩,
            ⟨.filterRampTo .noiseF 500 2, true⟩,
            ⟨.noiseAttackRelease .n2 0.02, true⟩]
         else []),
     r₁.2 ++ r₂.2⟩

/-- `SFXEngineClass.playBridgeSpawn()`: sub release (in try/catch) then
re-attack, heroic chord, shimmer, noise texture, `swell(2)`. -/
def sfxPlayBridgeSpawn (s : SfxState) (amb : AmbState) : SfxAmbResult :=
  if ¬ s.initialized then ⟨s, amb, [], []⟩
  else
    let r := ambSwell amb 2
    ⟨s, r.1,
     (if s.subSynth then
        [⟨.triggerRelease .subS 0, true⟩,
         ⟨.triggerAttackRelease .subS [⟨7, 2⟩] .n4 0.01 0.8, false⟩]
      else [])
     ++ (if s.melodicSynth then
           bridgeChord.enum.map (fun p =>
             (⟨.triggerAttackRelease .melodicS [p.2] .n4
                 (0.15 + (p.1 : ℚ) * 0.08) 0.6, false⟩ : Emit SfxOp))
         else [])
     ++ (if s.harmonicSynth then
           [⟨.triggerAttackRelease .harmonicS [⟨7, 5⟩, ⟨2, 6⟩] .n2 0.4 0.35, false⟩]
         else [])
     ++ (if s.noiseFilter ∧ s.noiseSynth then
           [⟨.filterSetValueAtTime .noiseF 200 0, false⟩,
            ⟨.filterRampTo .noiseF 1500 0.3, false⟩,
            ⟨.noiseAttackRelease .n8 0, false⟩]
         else []),
     r.2⟩

/-- `SFXEngineClass.setSpiralSuction(intensity)` (the crackle system is
repurposed as the suction voice): with `intensity ≤ 0` while active the
gain is ramped to 0.0001 over 0.3 s and the active flag cleared — the
noise voice is never released and the LFO never stopped; with a
positive intensity the voice is attacked only when neither suction nor
crackling is active, else only the gain and LFO frequency targets are
updated. -/
def sfxSetSpiralSuction (s : SfxState) (intensity : ℚ) :
    SfxState × List (Emit SfxOp) :=
  if ¬ s.initialized then (s, [])
  else if intensity ≤ 0 then
    if s.spiralSuctionActive then
      ({ s with spiralSuctionActive := false },
       if s.crackleGain then [⟨.gainLinearRampTo .crackleG 0.0001 0.3, false⟩]
       else [])
    else (s, [])
  else
    let volume := 0.02 + intensity * 0.04
    let start := ¬ s.spiralSuctionActive ∧ ¬ s.crackleActive
    let s1 := if start then { s with spiralSuctionActive := true } else s
    let ops1 : List (Emit SfxOp) :=
      if start then
        (if s.crackleLFO then
           [⟨.lfoSetFreqAtTime 3, false⟩, ⟨.lfoStart, false⟩] else [])
        ++ (if s.crackleNoise then [⟨.noiseAttack .crackleS, false⟩] else [])
      else []
    if s1.spiralSuctionActive then
      (s1, ops1
        ++ (if s.crackleGain then
              [⟨.gainLinearRampTo .crackleG volume 0.2, false⟩] else [])
        ++ (if s.crackleLFO then
              [⟨.lfoFreqLinearRampTo (3 + intensity * 5) 0.2, false⟩] else []))
    else (s1, ops1)

/-- `SFXEngineClass.setChamberCrackling(count)`: with `count ≤ 0` while
active the gain is ramped down over 0.5 s and a 500 ms timeout then
releases the noise, stops the LFO and clears the active flag (so the
flag itself stays set until the timeout fires); with a positive count
the voice is attacked only when not already active, else only gain, LFO
frequency and filter Q targets are updated. -/
def sfxSetChamberCrackling (s : SfxState) (count : ℚ) :
    SfxState × List (Emit SfxOp) :=
  if ¬ s.initialized then (s, [])
  else if count ≤ 0 then
    if s.crackleActive then
      (s, (if s.crackleGain then
             [⟨.gainLinearRampTo .crackleG 0.0001 0.5, false⟩] else [])
          ++ [⟨.deferredCrackleStop 500, false⟩])
    else (s, [])
  else
    let intensity := qmin 1 (count / 5)
    let volume := 0.03 + intensity * 0.06
    let lfoFreq := 8 + intensity * 15
    let s1 := if ¬ s.crackleActive then { s with crackleActive := true } else s
    let ops1 : List (Emit SfxOp) :=
      if ¬ s.crackleActive then
        (if s.crackleLFO then [⟨.lfoStart, false⟩] else [])
        ++ (if s.crackleNoise then [⟨.noiseAttack .crackleS, false⟩] else [])
      else []
    (s1, ops1
      ++ (if s.crackleGain then
            [⟨.gainLinearRampTo .crackleG volume 0.3, false⟩] else [])
      ++ (if s.crackleLFO then
            [⟨.lfoFreqLinearRampTo lfoFreq 0.3, false⟩] else [])
      ++ (if s.crackleFilter then
            [⟨.filterQLinearRampTo .crackleF (4 + intensity * 8) 0.3, false⟩]
          else []))

/-- `SFXEngineClass.setBridgeAttraction(strength)`: with `strength ≤ 0`
while active the gain is ramped down over 1.5 s and a 1500 ms timeout
then releases the synth and clears the active flag; with a positive
strength the deep G1 is attacked only when not already active, else
only gain, vibrato and filter targets are updated. -/
def sfxSetBridgeAttraction (s : SfxState) (strength : ℚ) :
    SfxState × List (Emit SfxOp) :=
  if ¬ s.initialized then (s, [])
  else if strength ≤ 0 then
    if s.attractActive then
      (s, (if s.attractGain then
             [⟨.gainLinearRampTo .attractG 0.0001 1.5, false⟩] else [])
          ++ [⟨.deferredAttractStop 1500, false⟩])
    else (s, [])
  else
    let volume := 0.02 + strength * 0.04
    let vibratoSpeed := 0.3 + strength * 0.4
    let filterFreq := 80 + strength * 100
    let s1 := if ¬ s.attractActive then { s with attractActive := true } else s
    let ops1 : List (Emit SfxOp) :=
      if ¬ s.attractActive then
        (if s.attractSynth then [⟨.synthAttack .attractS [⟨7, 1⟩], false⟩] else [])
      else []
    (s1, ops1
      ++ (if s.attractGain then
            [⟨.gainLinearRampTo .attractG volume 0.8, false⟩] else [])
      ++ (if s.attractVibrato then
            [⟨.vibratoFreqLinearRampTo vibratoSpeed 0.5, false⟩] else [])
      ++ (if s.attractFilter then
            [⟨.filterLinearRampTo .attractF filterFreq 0.5, false⟩]
          else []))

/-- `SFXEngineClass.dispose()`: stops the continuous textures first
(`setChamberCrackling(0)`, `setBridgeAttraction(0)`), then disposes
every node (node disposal is modelled as pure state: it cannot throw)
and clears `initialized`; the field references are kept. -/
def sfxDispose (s : SfxState) : SfxState × List (Emit SfxOp) :=
  let r₁ := sfxSetChamberCrackling s 0
  let r₂ := sfxSetBridgeAttraction r₁.1 0
  ({ r₂.1 with initialized := false }, r₁.2 ++ r₂.2)

/-! ## Unlock sequence (ToneAudioSystemClass.unlockAudio) -/

/-- Possible states of the platform audio context. -/
inductive CtxState
  | running | suspended | closed
deriving DecidableEq

/-- Environment for one run of the unlock sequence: the context state the
platform reports after each of the three resume attempts. -/
structure UnlockEnv where
  stateAfterStart : CtxState
  stateAfterResume : CtxState
  stateAfterRaw : CtxState
deriving DecidableEq

/-- One step of `ToneAudioSystemClass.unlockAudio`, with the timeout (ms)
of the `withTimeout` wrapper where the source uses one. -/
inductive UnlockStep
  | toneStart (timeoutMs : Nat)
  | contextResume (timeoutMs : Nat)
  | rawContextResume (timeoutMs : Nat)
  | silentBuffer
deriving DecidableEq

/-- Context state observed after methods 1–2 of `unlockAudio` (method 2
runs only when the state after method 1 is `suspended`). -/
def stateAfterMethod2 (e : UnlockEnv) : CtxState :=
  if e.stateAfterStart = .suspended then e.stateAfterResume else e.stateAfterStart

/-- Context state observed after methods 1–3 of `unlockAudio` (method 3
runs only when the state after method 2 is not `running`). -/
def stateAfterMethod3 (e : UnlockEnv) : CtxState :=
  if stateAfterMethod2 e ≠ .running then e.stateAfterRaw else stateAfterMethod2 e

/-- `ToneAudioSystemClass.unlockAudio`: the unlock steps actually
attempted, in order.  Method 1 (`Tone.start()`, 2 s timeout) always
runs; method 2 (`Tone.context.resume()`, 2 s timeout) only if the state
is then `suspended`; method 3 (`rawContext.resume()`, 2 s timeout) only
if the state is then not `running`; method 4 (the near-silent buffer) is
always attempted — the source comment reads "Do this regardless of
state".  The class keeps no in-progress flag, so nothing coalesces two
overlapping invocations. -/
def unlockAudio (e : UnlockEnv) : List UnlockStep :=
  [.toneStart 2000]
    ++ (if e.stateAfterStart = .suspended then [.contextResume 2000] else [])
    ++ (if stateAfterMethod2 e ≠ .running then [.rawContextResume 2000] else [])
    ++ [.silentBuffer]

/-- Position of each unlock step in the escalation order. -/
def stepRank : UnlockStep → Nat
  | .toneStart _ => 0
  | .contextResume _ => 1
  | .rawContextResume _ => 2
  | .silentBuffer => 3

/-- An environment in which the very first step already leaves the
engine running. -/
def envAlreadyRunning : UnlockEnv := ⟨.running, .running, .running⟩

/-! ## Claim theorems: C5, C8, C10 -/

/-- C5 counterexample: when `Tone.start()` already leaves the engine
running, the near-silent-buffer fallback is still attempted (and the
resume steps are correctly skipped), so the claim that each later step
is attempted only if the previous steps left the engine in a non-running
state is false; the final fallback is unconditional. -/
theorem c5_counterexample :
    unlockAudio envAlreadyRunning = [.toneStart 2000, .silentBuffer] ∧
    stateAfterMethod3 envAlreadyRunning = .running := by decide

/-- C5 (amended): the unlock sequence attempts its steps in the fixed
escalation order — engine start, context resume, raw hardware resume,
near-silent buffer — with the engine start always attempted first under
a 2 s timeout, the context resume attempted iff the state is then
`suspended`, the raw resume attempted iff the state is then not
`running`, and the near-silent buffer always attempted last regardless
of the engine state; there is no guard against re-entrant invocations. -/
theorem c5_amended (e : UnlockEnv) :
    (unlockAudio e).head? = some (.toneStart 2000) ∧
    ((UnlockStep.contextResume 2000 ∈ unlockAudio e) ↔
        e.stateAfterStart = .suspended) ∧
    ((UnlockStep.rawContextResume 2000 ∈ unlockAudio e) ↔
        stateAfterMethod2 e ≠ .running) ∧
    (unlockAudio e).getLast? = some .silentBuffer ∧
    List.Chain' (fun a b => stepRank a < stepRank b) (unlockAudio e) := by
  by_cases h1 : e.stateAfterStart = .suspended <;>
    by_cases h2 : stateAfterMethod2 e = .running <;>
      simp [unlockAudio, h1, h2, stepRank, List.getLast?]

/-- C8 counterexample: on the initialized Effect Chain, `setMuted(true)`
applies its change as a plain mute-flag assignment — not as any kind of
time-bounded ramp — refuting the claim that every one of the five global
controls ramps over 0.5–1 s. -/
theorem c8_counterexample :
    (ecSetMuted ecReady true).2 = [⟨EcOp.setMuteFlag true, false⟩] ∧
    ((ecSetMuted ecReady true).2.all (fun e => e.op.isTimeBoundedRamp)) = false := by
  decide

/-- C8 (amended): `setMasterVolume`, `setReverbMix`, `setDelayMix` and
`setFilterFrequency` each apply their change as one single time-bounded
ramp of 0.5–1 s (with `setFilterFrequency` clamping its target to
20–20000 Hz), while `setMuted` instead sets the master channel's mute
flag instantaneously. -/
theorem c8_amended (s : EffectState) (db amt₁ amt₂ freq : ℚ) (m : Bool)
    (hmc : s.masterChannel.isSome = true) (hrs : s.reverbSend.isSome = true)
    (hds : s.delaySend.isSome = true) (hwf : s.warmFilter.isSome = true) :
    singleRampWithin 0.5 1 (ecSetMasterVolume s db) = true ∧
    singleRampWithin 0.5 1 (ecSetReverbMix s amt₁) = true ∧
    singleRampWithin 0.5 1 (ecSetDelayMix s amt₂) = true ∧
    singleRampWithin 0.5 1 (ecSetFilterFrequency s freq) = true ∧
    ecSetFilterFrequency s freq
      = [⟨.rampTo .filterFrequency (qmax 20 (qmin 20000 freq)) 0.5, false⟩] ∧
    (ecSetMuted s m).2 = [⟨.setMuteFlag m, false⟩] ∧
    (EcOp.setMuteFlag m).isTimeBoundedRamp = false := by
  rcases Option.isSome_iff_exists.mp hmc with ⟨n₁, hn₁⟩
  rcases Option.isSome_iff_exists.mp hrs with ⟨n₂, hn₂⟩
  rcases Option.isSome_iff_exists.mp hds with ⟨n₃, hn₃⟩
  rcases Option.isSome_iff_exists.mp hwf with ⟨n₄, hn₄⟩
  refine ⟨?_, ?_, ?_, ?_, ?_, ?_, ?_⟩ <;>
    simp [ecSetMasterVolume, ecSetReverbMix, ecSetDelayMix,
          ecSetFilterFrequency, ecSetMuted, hn₁, hn₂, hn₃, hn₄,
          singleRampWithin, EcOp.isTimeBoundedRamp, EcOp.rampDuration] <;>
    norm_num

/-- C8 witness: the amended statement holds at the post-init chain with
concrete control values. -/
theorem c8_witness :
    (ecReady.masterChannel.isSome = true ∧ ecReady.reverbSend.isSome = true ∧
     ecReady.delaySend.isSome = true ∧ ecReady.warmFilter.isSome = true) ∧
    (singleRampWithin 0.5 1 (ecSetMasterVolume ecReady (-12)) = true ∧
     singleRampWithin 0.5 1 (ecSetReverbMix ecReady 0.4) = true ∧
     singleRampWithin 0.5 1 (ecSetDelayMix ecReady 0.4) = true ∧
     singleRampWithin 0.5 1 (ecSetFilterFrequency ecReady 5) = true ∧
     ecSetFilterFrequency ecReady 5
       = [⟨.rampTo .filterFrequency (qmax 20 (qmin 20000 5)) 0.5, false⟩] ∧
     (ecSetMuted ecReady true).2 = [⟨.setMuteFlag true, false⟩] ∧
     (EcOp.setMuteFlag true).isTimeBoundedRamp = false) :=
  ⟨⟨by decide, by decide, by decide, by decide⟩,
   c8_amended ecReady (-12) 0.4 0.4 5 true
     (by decide) (by decide) (by decide) (by decide)⟩

/-- C10: the four handle getters return null only before the first
successful `init()` — a fresh chain returns null from all four, a
successful init makes all four non-null, and no later `init` or
`dispose` ever resets a handle field to null; `dispose()` resets
`initialized` to false but every getter then returns the same node
handle (same `uid`), now marked disposed. -/
theorem c10_handles (s : EffectState) (h : s.initialized = false) :
    (getMainInput ecFresh = none ∧ getReverbSend ecFresh = none ∧
     getDelaySend ecFresh = none ∧ getMasterChannel ecFresh = none) ∧
    ((getMainInput (ecInit s true)).isSome = true ∧
     (getReverbSend (ecInit s true)).isSome = true ∧
     (getDelaySend (ecInit s true)).isSome = true ∧
     (getMasterChannel (ecInit s true)).isSome = true) ∧
    ((ecDispose s).1.initialized = false ∧
     getMainInput (ecDispose s).1 = (getMainInput s).map markDisposed ∧
     getReverbSend (ecDispose s).1 = (getReverbSend s).map markDisposed ∧
     getDelaySend (ecDispose s).1 = (getDelaySend s).map markDisposed ∧
     getMasterChannel (ecDispose s).1 = (getMasterChannel s).map markDisposed ∧
     (getMainInput (ecDispose s).1).map Node.uid = (getMainInput s).map Node.uid ∧
     (getMasterChannel (ecDispose s).1).map Node.uid
       = (getMasterChannel s).map Node.uid) ∧
    (∀ b : Bool,
      ((getMainInput s).isSome = true → (getMainInput (ecInit s b)).isSome = true) ∧
      ((getMainInput s).isSome = true →
        (getMainInput (ecDispose s).1).isSome = true)) := by
  refine ⟨⟨by decide, by decide, by decide, by decide⟩, ?_, ?_, ?_⟩
  · simp [ecInit, h, getMainInput, getReverbSend, getDelaySend, getMasterChannel]
  · simp [ecDispose, getMainInput, getReverbSend, getDelaySend, getMasterChannel,
          markDisposed, Option.map_map]
    constructor <;> (cases s.warmFilter <;> cases s.masterChannel <;> simp [markDisposed])
  · intro b
    constructor
    · intro hs
      cases b <;> simp [ecInit, h, getMainInput] at hs ⊢ <;> simp [hs]
    · intro hs
      simpa [ecDispose, getMainInput] using hs

/-- C10 witness: the conjunction instantiated at the fresh chain. -/
theorem c10_witness :
    ecFresh.initialized = false ∧
    ((getMainInput (ecInit ecFresh true)).isSome = true ∧
     (getMasterChannel (ecInit ecFresh true)).isSome = true) :=
  ⟨by decide,
   ⟨(c10_handles ecFresh (by decide)).2.1.1,
    (c10_handles ecFresh (by decide)).2.1.2.2.2⟩⟩

/-! ## MusicLoopSystem (the loop-based continuous-modulation variant) -/

/-- The four pre-rendered loop tracks. -/
inductive TrackName
  | base | hihat | saw | bass
deriving DecidableEq

/-- `getTrackForLevel` (MusicLoopSystem): level 0 is the tutorial — no
music; levels 1–2 base, 3–4 hihat, 5–7 saw, 8 and up bass (the
LEVEL_TRACK table covers 1–20 and the `|| 'bass'` fallback covers the
rest). -/
def getTrackForLevel (level : Nat) : Option TrackName :=
  if level = 0 then none
  else if level ≤ 2 then some .base
  else if level ≤ 4 then some .hihat
  else if level ≤ 7 then some .saw
  else some .bass

/-- State of `MusicLoopSystemClass`: the `gain…` fields hold each
track's most recently scheduled gain-ramp target (all buffers are
assumed decoded; a missing buffer merely skips its source at start). -/
structure MlsState where
  initialized : Bool
  started : Bool
  currentLevel : Nat
  currentTrack : TrackName
  gainBase : ℚ
  gainHihat : ℚ
  gainSaw : ℚ
  gainBass : ℚ
deriving DecidableEq

/-- The loop player right after a successful `init()`: every track gain
starts at 0 and the stored track is 'base'. -/
def mlsReady : MlsState := ⟨true, false, 0, .base, 0, 0, 0, 0⟩

/-- Gain-ramp target of one track. -/
def mlsTrackGain (s : MlsState) (t : TrackName) : ℚ :=
  match t with
  | .base => s.gainBase
  | .hihat => s.gainHihat
  | .saw => s.gainSaw
  | .bass => s.gainBass

/-- `MusicLoopSystemClass.setTrackVolume(track, volume)` (private):
cancel pending automation and ramp that track's gain to `volume`. -/
def mlsSetTrackVolume (s : MlsState) (t : TrackName) (v : ℚ) : MlsState :=
  match t with
  | .base => { s with gainBase := v }
  | .hihat => { s with gainHihat := v }
  | .saw => { s with gainSaw := v }
  | .bass => { s with gainBass := v }

/-- `MusicLoopSystemClass.setLevel(level)`: before `start()` only stores
the level and the target track; afterwards mutes everything at level 0,
no-ops when the target is already audible, else crossfades old out and
new in. -/
def mlsSetLevel (s : MlsState) (level : Nat) : MlsState :=
  if ¬ s.initialized then s
  else
    let s1 := { s with currentLevel := level }
    let target := getTrackForLevel level
    if ¬ s1.started then { s1 with currentTrack := target.getD .base }
    else
      match target with
      | none => mlsSetTrackVolume s1 s1.currentTrack 0
      | some t =>
          if t = s1.currentTrack then s1
          else
            { mlsSetTrackVolume (mlsSetTrackVolume s1 s1.currentTrack 0) t 1 with
                currentTrack := t }

/-- `MusicLoopSystemClass.start()`: starts all loop sources in lockstep;
when `setLevel()` already ran and `currentLevel ≥ 1`, the level-selected
track is unmuted immediately, so the first rendered frame reflects it. -/
def mlsStart (s : MlsState) : MlsState :=
  if ¬ s.initialized then s
  else if s.started then s
  else
    let s1 :=
      if 1 ≤ s.currentLevel then
        match getTrackForLevel s.currentLevel with
        | some t => mlsSetTrackVolume s t 1
        | none => s
      else s
    { s1 with started := true }

/-! ## Claim theorems: C6, C7 -/

/-- C6 counterexample: after `init()`, `setGameLevel(3)`, `start()` on
the synthesized soundscape (the variant the src orchestrator drives),
the remembered intensity is level 3's 0.48, yet the layer gain targets
produced by `start()` are the hardcoded fade-in defaults, not the
intensity-derived values of the remembered level — the state stays at
the defaults until the next `setIntensity`/`setGameLevel` call. -/
theorem c6_counterexample :
    ((ambStart (ambSetGameLevel ambReady 3).1).1).intensity = 0.48 ∧
    ((ambStart (ambSetGameLevel ambReady 3).1).1).layerTargets ≠
      ambIntensityTargets ((ambStart (ambSetGameLevel ambReady 3).1).1).intensity := by
  constructor <;>
    norm_num [ambStart, ambSetGameLevel, ambSetIntensity, ambPlayChord, ambReady,
      ambInitStep, ambFresh, ecReady, ecInit, ecFresh, getMainInput, getReverbSend,
      getDelaySend, setDroneGainAt, AmbState.layerTargets, AmbState.droneGainAt,
      ambIntensityTargets, qmin, qmax]

/-- C6 (amended): in the synthesized soundscape, `start()` ramps the
layers to fixed default targets (sub 0.12, active drone 0.06, strings
0.05, brass 0.02, shimmer 0.04, filter at its 600 Hz build value)
independent of any level remembered from a pre-start `setGameLevel`; in
the loop-based variant (MusicLoopSystem), `start()` does honor a
pre-start `setLevel`: for any level ≥ 1 the level-selected track's gain
target is 1 from the start and every other track stays at 0. -/
theorem c6_amended :
    (∀ l : ℚ, ((ambStart (ambSetGameLevel ambReady l).1).1).layerTargets
        = ⟨0.12, 0.06, 0.05, 0.02, 0.04, 600⟩) ∧
    (∀ lvl : Nat, 1 ≤ lvl → ∀ t : TrackName,
      mlsTrackGain (mlsStart (mlsSetLevel mlsReady lvl)) t
        = (if getTrackForLevel lvl = some t then 1 else 0)) := by
  constructor
  · intro l
    simp [ambSetGameLevel, ambSetIntensity, ambReady, ambInitStep, ambFresh,
          ecReady, ecInit, ecFresh, getMainInput, getReverbSend, getDelaySend,
          ambStart, ambPlayChord, setDroneGainAt, AmbState.layerTargets,
          AmbState.droneGainAt]
  · intro lvl h t
    have h0 : lvl ≠ 0 := by omega
    by_cases h2 : lvl ≤ 2
    · by_cases hl1 : lvl = 1
      · subst hl1; cases t <;> decide
      · have : lvl = 2 := by omega
        subst this; cases t <;> decide
    · by_cases h4 : lvl ≤ 4
      · have : lvl = 3 ∨ lvl = 4 := by omega
        rcases this with h | h <;> subst h <;> cases t <;> decide
      · by_cases h7 : lvl ≤ 7
        · have : lvl = 5 ∨ lvl = 6 ∨ lvl = 7 := by omega
          rcases this with h | h | h <;> subst h <;> cases t <;> decide
        · simp [mlsSetLevel, mlsStart, mlsReady, getTrackForLevel, h, h0, h2, h4, h7,
                mlsSetTrackVolume, mlsTrackGain]
          cases t <;> simp [mlsSetTrackVolume, mlsTrackGain]

/-- C6 witness: the loop-variant clause of the amended claim at level 3
(the scenario's level), which selects the hihat track. -/
theorem c6_witness :
    1 ≤ 3 ∧
    mlsTrackGain (mlsStart (mlsSetLevel mlsReady 3)) .hihat
      = (if getTrackForLevel 3 = some .hihat then 1 else 0) :=
  ⟨by decide, c6_amended.2 3 (by decide) .hihat⟩

/-- C7: in the active state, with the layer targets currently equal to
the intensity-derived targets of the remembered intensity (itself inside
its clamp range), `setInvertedMode(true)` followed by
`setInvertedMode(false)` restores exactly those intensity-derived
targets — the very targets in effect before the `true` call — and the
remembered intensity is unchanged; nothing is reset to a hardcoded
default. -/
theorem c7_round_trip (s : AmbState)
    (hInit : s.initialized = true) (hAct : s.active = true)
    (hlo : 0.1 ≤ s.intensity) (hhi : s.intensity ≤ 1)
    (hT : s.layerTargets = ambIntensityTargets s.intensity) :
    ((ambSetInvertedMode (ambSetInvertedMode s true).1 false).1).layerTargets
        = s.layerTargets ∧
    ((ambSetInvertedMode (ambSetInvertedMode s true).1 false).1).layerTargets
        = ambIntensityTargets s.intensity ∧
    ((ambSetInvertedMode (ambSetInvertedMode s true).1 false).1).intensity
        = s.intensity ∧
    ((ambSetInvertedMode (ambSetInvertedMode s true).1 false).1).invertedMode
        = false := by
  have hmin : qmin 1 s.intensity = s.intensity := by
    unfold qmin; split_ifs with h
    · exact (le_antisymm hhi h).symm
    · rfl
  have hclamp : qmax 0.1 (qmin 1 s.intensity) = s.intensity := by
    rw [hmin]; unfold qmax; rw [if_pos hlo]
  have key :
      (ambSetInvertedMode (ambSetInvertedMode s true).1 false).1
        = setDroneGainAt
            { s with invertedMode := false, pulseGain := 0.0001,
                     pulseLoopRunning := true, droneGain0 := 0.02,
                     droneGain1 := 0.02, droneGain2 := 0.02,
                     subGain := (ambIntensityTargets s.intensity).sub,
                     stringGain := (ambIntensityTargets s.intensity).string,
                     brassGain := (ambIntensityTargets s.intensity).brass,
                     shimmerGain := (ambIntensityTargets s.intensity).shimmer,
                     droneFilterFreq := (ambIntensityTargets s.intensity).filterFreq }
            s.currentDroneIndex (ambIntensityTargets s.intensity).organ := by
    simp [ambSetInvertedMode, hInit, hAct, ambSetIntensity, hclamp]
  refine ⟨?_, ?_, ?_, ?_⟩ <;> rw [key] <;>
    [skip; skip; skip; skip] <;>
    first
      | (rw [hT]
         by_cases h0 : s.currentDroneIndex = 0 <;>
           by_cases h1 : s.currentDroneIndex = 1 <;>
             simp [setDroneGainAt, AmbState.layerTargets, AmbState.droneGainAt, h0, h1])
      | (by_cases h0 : s.currentDroneIndex = 0 <;>
           by_cases h1 : s.currentDroneIndex = 1 <;>
             simp [setDroneGainAt, AmbState.layerTargets, AmbState.droneGainAt, h0, h1])

/-- A concrete active soundscape state with intensity 0.5 whose layer
targets are the intensity-derived ones (the state reached by `start()`
followed by `setIntensity(0.5)`). -/
def ambAtHalf : AmbState :=
  { initialized := true, active := true, invertedMode := false,
    intensity := 0.5, gameLevel := 1, currentDroneIndex := 1,
    currentChordIndex := 0, subGain := 0.13, droneGain0 := 0.0001,
    droneGain1 := 0.07, droneGain2 := 0, stringGain := 0.06,
    brassGain := 0.001, shimmerGain := 0.045, pulseGain := 0,
    droneFilterFreq := 800, pulseLoopRunning := false,
    chordTimerScheduled := true }

/-- C7 witness: the round trip at the concrete active state with
intensity 0.5. -/
theorem c7_witness :
    (ambAtHalf.initialized = true ∧ ambAtHalf.active = true ∧
     0.1 ≤ ambAtHalf.intensity ∧ ambAtHalf.intensity ≤ 1 ∧
     ambAtHalf.layerTargets = ambIntensityTargets ambAtHalf.intensity) ∧
    ((ambSetInvertedMode (ambSetInvertedMode ambAtHalf true).1 false).1).layerTargets
        = ambAtHalf.layerTargets ∧
    ((ambSetInvertedMode (ambSetInvertedMode ambAtHalf true).1 false).1).intensity
        = ambAtHalf.intensity :=
  ⟨⟨rfl, rfl, by norm_num [ambAtHalf], by norm_num [ambAtHalf],
    by norm_num [ambAtHalf, AmbState.layerTargets, AmbState.droneGainAt,
                 ambIntensityTargets]⟩,
   (c7_round_trip ambAtHalf rfl rfl (by norm_num [ambAtHalf])
      (by norm_num [ambAtHalf])
      (by norm_num [ambAtHalf, AmbState.layerTargets, AmbState.droneGainAt,
                    ambIntensityTargets])).1,
   (c7_round_trip ambAtHalf rfl rfl (by norm_num [ambAtHalf])
      (by norm_num [ambAtHalf])
      (by norm_num [ambAtHalf, AmbState.layerTargets, AmbState.droneGainAt,
                    ambIntensityTargets])).2.2.1⟩

/-! ## Claim theorems: C2, C3, C4 -/

/-- The combo counter after a playCollect update never exceeds the cap 10. -/
theorem comboAfter_le_ten (s : SfxState) (t : Nat) : comboAfter s t ≤ 10 := by
  unfold comboAfter; split_ifs
  · exact Nat.min_le_left _ _
  · exact Nat.zero_le _

/-- Below the cap, the combo-derived velocity at the default base 0.25
strictly increases with the combo. -/
theorem collectVelocity_lt_succ (c : Nat) (h : c ≤ 9) :
    collectVelocity 0.25 c < collectVelocity 0.25 (c + 1) := by
  have hc : (c : ℚ) ≤ 9 := by exact_mod_cast h
  have h1 : ¬ ((0.5 : ℚ) ≤ 0.25 * (1 + (c : ℚ) * 0.05)) := by nlinarith
  have h2 : ¬ ((0.5 : ℚ) ≤ 0.25 * (1 + ((c : ℚ) + 1) * 0.05)) := by nlinarith
  unfold collectVelocity qmin
  push_cast
  rw [if_neg h1, if_neg h2]
  linarith

/-- The states after two successive playCollect calls with the
parameters the orchestrator passes (`{ pitch }`). -/
def twoCollectCalls (s : SfxState) (pitch t₁ t₂ : Nat) : SfxState × SfxState :=
  let p : SFXParams := ⟨some pitch, none, none, none⟩
  let r₁ := (sfxPlayCollect s p t₁).1
  (r₁, (sfxPlayCollect r₁ p t₂).1)

/-- C2: for two successive `playCollect` calls, a gap strictly under the
300 ms combo window increments the combo counter capped at its maximum
of 10, and the combo-derived velocity strictly increases while the
counter is below the cap and stays unchanged once the cap is reached; a
gap of at least the window resets the counter to its base value 0. -/
theorem c2_combo (s : SfxState) (pitch t₁ t₂ : Nat)
    (hI : s.initialized = true) (hM : s.melodicSynth = true) :
    (t₂ - t₁ < 300 →
      ((twoCollectCalls s pitch t₁ t₂).2).collectCombo
        = min 10 (((twoCollectCalls s pitch t₁ t₂).1).collectCombo + 1) ∧
      (((twoCollectCalls s pitch t₁ t₂).1).collectCombo < 10 →
        collectVelocity 0.25 (((twoCollectCalls s pitch t₁ t₂).1).collectCombo)
          < collectVelocity 0.25 (((twoCollectCalls s pitch t₁ t₂).2).collectCombo)) ∧
      (((twoCollectCalls s pitch t₁ t₂).1).collectCombo = 10 →
        collectVelocity 0.25 (((twoCollectCalls s pitch t₁ t₂).2).collectCombo)
          = collectVelocity 0.25 (((twoCollectCalls s pitch t₁ t₂).1).collectCombo))) ∧
    (300 ≤ t₂ - t₁ → ((twoCollectCalls s pitch t₁ t₂).2).collectCombo = 0) := by
  have hr₁ : (twoCollectCalls s pitch t₁ t₂).1
      = { s with collectCombo := comboAfter s t₁, lastCollectTime := t₁ } := by
    simp [twoCollectCalls, sfxPlayCollect, hI, hM]
  have hr₂ : ((twoCollectCalls s pitch t₁ t₂).2).collectCombo
      = comboAfter ((twoCollectCalls s pitch t₁ t₂).1) t₂ := by
    simp only [twoCollectCalls] at hr₁ ⊢
    rw [hr₁]
    simp [sfxPlayCollect, hI, hM, hr₁]
  have hlast : ((twoCollectCalls s pitch t₁ t₂).1).lastCollectTime = t₁ := by
    rw [hr₁]
  constructor
  · intro hgap
    have hca : comboAfter ((twoCollectCalls s pitch t₁ t₂).1) t₂
        = min 10 (((twoCollectCalls s pitch t₁ t₂).1).collectCombo + 1) := by
      unfold comboAfter
      rw [hlast, if_pos hgap]
    refine ⟨by rw [hr₂, hca], ?_, ?_⟩
    · intro hcap
      rw [hr₂, hca]
      have h9 : ((twoCollectCalls s pitch t₁ t₂).1).collectCombo ≤ 9 := by omega
      have hmin : min 10 (((twoCollectCalls s pitch t₁ t₂).1).collectCombo + 1)
          = ((twoCollectCalls s pitch t₁ t₂).1).collectCombo + 1 := by omega
      rw [hmin]
      exact collectVelocity_lt_succ _ h9
    · intro hcap
      rw [hr₂, hca, hcap]
      norm_num
  · intro hgap
    rw [hr₂]
    unfold comboAfter
    rw [hlast, if_neg (by omega)]

/-- C2 witness: two rapid calls (gap 100 ms) from the fresh post-init
engine; the combo goes 0 → 1 and the velocity strictly increases. -/
theorem c2_witness :
    (sfxReady.initialized = true ∧ sfxReady.melodicSynth = true ∧
     (1100 : Nat) - 1000 < 300) ∧
    ((twoCollectCalls sfxReady 0 1000 1100).2).collectCombo
      = min 10 (((twoCollectCalls sfxReady 0 1000 1100).1).collectCombo + 1) ∧
    (((twoCollectCalls sfxReady 0 1000 1100).1).collectCombo < 10 →
      collectVelocity 0.25 (((twoCollectCalls sfxReady 0 1000 1100).1).collectCombo)
        < collectVelocity 0.25 (((twoCollectCalls sfxReady 0 1000 1100).2).collectCombo)) :=
  ⟨⟨by decide, by decide, by decide⟩,
   ((c2_combo sfxReady 0 1000 1100 (by decide) (by decide)).1 (by decide)).1,
   ((c2_combo sfxReady 0 1000 1100 (by decide) (by decide)).1 (by decide)).2.1⟩

/-- Whether an op attacks the monophonic sub voice. -/
def opAttacksSub : SfxOp → Bool
  | .triggerAttackRelease .subS _ _ _ _ => true
  | .synthAttack .subS _ => true
  | _ => false

/-- Whether an op releases the monophonic sub voice. -/
def opReleasesSub : SfxOp → Bool
  | .triggerRelease .subS _ => true
  | _ => false

/-- Scan of a call's op list: `true` iff every attack of the monophonic
sub voice is preceded by a release of it earlier in the same call. -/
def subReleaseBeforeAttack (released : Bool) : List (Emit SfxOp) → Bool
  | [] => true
  | e :: es =>
      if opAttacksSub e.op then released && subReleaseBeforeAttack released es
      else if opReleasesSub e.op then subReleaseBeforeAttack true es
      else subReleaseBeforeAttack released es

/-- C4 counterexample: `playCollect` at combo ≥ 5 (here the sixth rapid
call, reaching the cap) attacks the monophonic sub voice with no
preceding release in the same call — so not every trigger method obeys
the release-before-attack discipline. -/
theorem c4_counterexample :
    subReleaseBeforeAttack false
      (sfxPlayCollect { sfxReady with collectCombo := 9, lastCollectTime := 1000 }
        noParams 1100).2 = false := by
  decide

/-- C4 (amended): the explicit release-before-re-attack discipline on
the monophonic sub voice holds in `playRejectDischarge`, `playCapture`,
`playRedHeartCapture`, `playDischarge`, `playMaxStack`,
`playBridgeSpawn`, `playSpiralSpawn` and `playSpiralDamage` — for every
state and parameters — but not in `playCollect` (combo ≥ 5) or
`playLevelUp`, which attack the sub voice with no preceding release
(`playLevelUp` relies on a strictly later time offset instead). -/
theorem c4_amended (s : SfxState) (amb : AmbState) (params : SFXParams) :
    subReleaseBeforeAttack false (sfxPlayRejectDischarge s).2 = true ∧
    subReleaseBeforeAttack false (sfxPlayCapture s amb params).sfxOps = true ∧
    subReleaseBeforeAttack false (sfxPlayRedHeartCapture s).2 = true ∧
    subReleaseBeforeAttack false (sfxPlayDischarge s amb params).sfxOps = true ∧
    subReleaseBeforeAttack false (sfxPlayMaxStack s amb).sfxOps = true ∧
    subReleaseBeforeAttack false (sfxPlayBridgeSpawn s amb).sfxOps = true ∧
    subReleaseBeforeAttack false (sfxPlaySpiralSpawn s).2 = true ∧
    subReleaseBeforeAttack false (sfxPlaySpiralDamage s).2 = true := by
  cases hInit : s.initialized <;> cases hSub : s.subSynth <;>
    cases hMel : s.melodicSynth <;> cases hHarm : s.harmonicSynth <;>
      cases hNF : s.noiseFilter <;> cases hNS : s.noiseSynth <;>
        simp [sfxPlayRejectDischarge, sfxPlayCapture, sfxPlayRedHeartCapture,
          sfxPlayDischarge, sfxPlayMaxStack, sfxPlayBridgeSpawn,
          sfxPlaySpiralSpawn, sfxPlaySpiralDamage, hInit, hSub, hMel, hHarm,
          hNF, hNS, subReleaseBeforeAttack, opAttacksSub, opReleasesSub,
          maxStackChord, bridgeChord, celestialNotes, droneFifths, List.enum]

/-- C3 counterexample: `setSpiralSuction(0)` while the suction texture
is active only ramps the gain down (0.3 s) and clears the flag — it
emits nothing that releases the noise voice or stops the LFO, so the
voice is never fully stopped after the ramp, refuting the claim for
this texture. -/
theorem c3_counterexample :
    ((sfxSetSpiralSuction { sfxReady with spiralSuctionActive := true } 0).2.map Emit.op
      = [.gainLinearRampTo .crackleG 0.0001 0.3]) ∧
    ((sfxSetSpiralSuction { sfxReady with spiralSuctionActive := true } 0).2.all
       (fun e => !(stopsVoice e.op)) = true) ∧
    ((sfxSetSpiralSuction { sfxReady with spiralSuctionActive := true } 0).1.spiralSuctionActive
      = false) :=
  ⟨rfl, rfl, rfl⟩

/-- C3 (amended): with input ≤ 0 while active, `setChamberCrackling`
ramps the gain down over 0.5 s and defers a full stop (release + LFO
stop) to a 500 ms timeout, and `setBridgeAttraction` ramps down over
1.5 s with the release deferred 1500 ms — never an instant cutoff —
while `setSpiralSuction` only ramps its gain down over 0.3 s and never
releases or stops the voice; with input > 0 while already active, all
three only update modulation targets (gain, LFO/vibrato frequency,
filter) and never re-attack or restart the voice, leaving the texture
state unchanged. -/
theorem c3_amended (s : SfxState) (x : ℚ) (hI : s.initialized = true)
    (hCG : s.crackleGain = true) (hCL : s.crackleLFO = true)
    (hCN : s.crackleNoise = true) (hCF : s.crackleFilter = true)
    (hAG : s.attractGain = true) (hAS : s.attractSynth = true)
    (hAV : s.attractVibrato = true) (hAF : s.attractFilter = true) :
    (x ≤ 0 → s.crackleActive = true →
      (sfxSetChamberCrackling s x).2.map Emit.op
        = [.gainLinearRampTo .crackleG 0.0001 0.5, .deferredCrackleStop 500]) ∧
    (x ≤ 0 → s.attractActive = true →
      (sfxSetBridgeAttraction s x).2.map Emit.op
        = [.gainLinearRampTo .attractG 0.0001 1.5, .deferredAttractStop 1500]) ∧
    (x ≤ 0 → s.spiralSuctionActive = true →
      (sfxSetSpiralSuction s x).2.map Emit.op
        = [.gainLinearRampTo .crackleG 0.0001 0.3] ∧
      (sfxSetSpiralSuction s x).2.all (fun e => !(stopsVoice e.op)) = true) ∧
    (0 < x → s.crackleActive = true →
      (sfxSetChamberCrackling s x).2.all (fun e => !(startsVoice e.op)) = true ∧
      (sfxSetChamberCrackling s x).1 = s) ∧
    (0 < x → s.attractActive = true →
      (sfxSetBridgeAttraction s x).2.all (fun e => !(startsVoice e.op)) = true ∧
      (sfxSetBridgeAttraction s x).1 = s) ∧
    (0 < x → s.spiralSuctionActive = true →
      (sfxSetSpiralSuction s x).2.all (fun e => !(startsVoice e.op)) = true ∧
      (sfxSetSpiralSuction s x).1 = s) := by
  refine ⟨?_, ?_, ?_, ?_, ?_, ?_⟩ <;> intro hx hact
  · simp [sfxSetChamberCrackling, hI, hact, hx, hCG]
  · simp [sfxSetBridgeAttraction, hI, hact, hx, hAG]
  · simp [sfxSetSpiralSuction, hI, hact, hx, hCG, stopsVoice]
  · have hnx : ¬ x ≤ 0 := not_le.mpr hx
    simp [sfxSetChamberCrackling, hI, hact, hnx, hCG, hCL, hCF, startsVoice]
  · have hnx : ¬ x ≤ 0 := not_le.mpr hx
    simp [sfxSetBridgeAttraction, hI, hact, hnx, hAG, hAV, hAF, startsVoice]
  · have hnx : ¬ x ≤ 0 := not_le.mpr hx
    simp [sfxSetSpiralSuction, hI, hact, hnx, hCG, hCL, startsVoice]

/-- A state with all three continuous textures active. -/
def sfxAllTexturesOn : SfxState :=
  { sfxReady with crackleActive := true, attractActive := true,
                  spiralSuctionActive := true }

/-- C3 witness: the amended statement at the all-textures-active state
with input 0 (the ramp-down clauses all fire). -/
theorem c3_witness :
    (sfxAllTexturesOn.initialized = true ∧ sfxAllTexturesOn.crackleActive = true ∧
     sfxAllTexturesOn.attractActive = true ∧
     sfxAllTexturesOn.spiralSuctionActive = true ∧ ((0 : ℚ) ≤ 0)) ∧
    ((sfxSetChamberCrackling sfxAllTexturesOn 0).2.map Emit.op
       = [.gainLinearRampTo .crackleG 0.0001 0.5, .deferredCrackleStop 500]) ∧
    ((sfxSetBridgeAttraction sfxAllTexturesOn 0).2.map Emit.op
       = [.gainLinearRampTo .attractG 0.0001 1.5, .deferredAttractStop 1500]) ∧
    ((sfxSetSpiralSuction sfxAllTexturesOn 0).2.map Emit.op
       = [.gainLinearRampTo .crackleG 0.0001 0.3]) :=
  ⟨⟨by decide, by decide, by decide, by decide, le_refl 0⟩,
   (c3_amended sfxAllTexturesOn 0 (by decide) (by decide) (by decide) (by decide)
      (by decide) (by decide) (by decide) (by decide) (by decide)).1
     (le_refl 0) (by decide),
   (c3_amended sfxAllTexturesOn 0 (by decide) (by decide) (by decide) (by decide)
      (by decide) (by decide) (by decide) (by decide) (by decide)).2.1
     (le_refl 0) (by decide),
   ((c3_amended sfxAllTexturesOn 0 (by decide) (by decide) (by decide) (by decide)
      (by decide) (by decide) (by decide) (by decide) (by decide)).2.2.1
     (le_refl 0) (by decide)).1⟩

/-! ## Orchestrator (src/lib/audio/tone/ToneAudioSystem.ts) -/

/-- An engine call issued somewhere below the orchestrator. -/
inductive ToneOp
  | ecOp (o : EcOp)
  | ambOp (o : AmbOp)
  | sfxOp (o : SfxOp)
  | unlockOp (o : UnlockStep)
  | beepOp
deriving DecidableEq

/-- Throwability by component (the unlock steps and the debug beep are
platform calls that can reject). -/
def ToneOp.throwable : ToneOp → Bool
  | .ecOp o => o.throwable
  | .ambOp o => o.throwable
  | .sfxOp o => o.throwable
  | .unlockOp _ => true
  | .beepOp => true

/-- A record of each delegation the orchestrator makes into one of its
three sub-components. -/
inductive Delegated
  | sfxPlayCollectD (pitch : Nat)
  | sfxPlaySuperStarCollectD
  | sfxPlayRejectDischargeD
  | sfxPlayCaptureD
  | sfxPlayDischargeD (level : ℚ)
  | sfxPlayLevelUpD (level : ℚ)
  | sfxPlayMaxStackD
  | sfxPlayModalEnterD
  | sfxPlayModalCloseD
  | sfxPlayChamberCaptureD (count : Nat)
  | sfxPlayBridgeSpawnD
  | sfxPlayCollectionCompleteD
  | sfxPlayRedHeartCaptureD
  | sfxPlaySpiralSpawnD
  | sfxPlaySpiralDefeatD
  | sfxPlaySpiralDamageD
  | sfxSetSpiralSuctionD (v : ℚ)
  | sfxSetChamberCracklingD (v : ℚ)
  | sfxSetBridgeAttractionD (v : ℚ)
  | sfxDisposeD
  | ambStartD
  | ambStopD
  | ambSetIntensityD (v : ℚ)
  | ambSetGameLevelD (v : ℚ)
  | ambSwellD (dur : ℚ)
  | ambSetInvertedModeD (b : Bool)
  | ambDisposeD
  | ecSetMutedD (b : Bool)
  | ecSetUnderwaterModeD (b : Bool)
  | ecInitD
  | ambInitD
  | sfxInitD
  | ecDisposeD
deriving DecidableEq

/-- State of `ToneAudioSystemClass` plus its three sub-components. -/
structure ToneState where
  initialized : Bool
  muted : Bool
  soundscapeStarted : Bool
  amb : AmbState
  sfx : SfxState
  ec : EffectState
deriving DecidableEq

/-- The whole system right after construction. -/
def toneFresh : ToneState := ⟨false, false, false, ambFresh, sfxFresh, ecFresh⟩

/-- Lift Effect Chain emissions to orchestrator level. -/
def liftEc (l : List (Emit EcOp)) : List (Emit ToneOp) :=
  l.map (fun e => ⟨.ecOp e.op, e.caught⟩)

/-- Lift Ambient Soundscape emissions to orchestrator level. -/
def liftAmb (l : List (Emit AmbOp)) : List (Emit ToneOp) :=
  l.map (fun e => ⟨.ambOp e.op, e.caught⟩)

/-- Lift SFX emissions to orchestrator level. -/
def liftSfx (l : List (Emit SfxOp)) : List (Emit ToneOp) :=
  l.map (fun e => ⟨.sfxOp e.op, e.caught⟩)

/-- The unlock sequence as emitted ops: every unlock method's body sits
inside its own try/catch, so each step is emitted caught. -/
def caughtUnlock (e : UnlockEnv) : List (Emit ToneOp) :=
  (unlockAudio e).map (fun st => ⟨.unlockOp st, true⟩)

/-- One public call into `ToneAudioSystemClass` (arguments explicit;
`init`/`resume` carry the platform environment, `playCollect` the
`Date.now()` reading its combo logic consumes). -/
inductive OrchCall
  | init (generateOk : Bool) (env : UnlockEnv)
  | resume (env : UnlockEnv)
  | toggleMute
  | getStateQ
  | playTestBeep
  | playCollect (pitch : Nat) (nowMs : Nat)
  | playSuperStarCollect
  | playRejectDischarge
  | playCapture
  | playDischarge (level : ℚ)
  | playLevelUp (level : ℚ)
  | playMaxStack
  | playModalEnter
  | playModalClose
  | playChamberCapture (count : Nat)
  | playBridgeSpawn
  | playCollectionComplete
  | playRedHeartCapture
  | playSpiralSpawn
  | playSpiralDefeat
  | playSpiralDamage
  | setSpiralSuction (v : ℚ)
  | setChamberCrackling (v : ℚ)
  | setBridgeAttraction (v : ℚ)
  | startBgMusic
  | stopBgMusic
  | setIntensity (v : ℚ)
  | setGameLevel (v : ℚ)
  | triggerSwell (dur : ℚ)
  | setInvertedMode (b : Bool)
  | dispose
deriving DecidableEq

/-- Result of one orchestrator call: the new state, every engine call
issued anywhere below it, and the delegations made. -/
structure ToneResult where
  state : ToneState
  ops : List (Emit ToneOp)
  delegated : List Delegated
deriving DecidableEq

/-- `ToneAudioSystemClass` dispatch: one case per public method,
mirroring the source bodies (guards, delegation targets and the
muted/uninitialized fallbacks). -/
def toneDispatch : OrchCall → ToneState → ToneResult
  | .init generateOk env, s =>
      -- init(): idempotent; unlock, then EffectChain/AmbientSoundscape/
      -- SFXEngine inits (each under withTimeout), all inside one try/catch;
      -- a rejected EffectChain.init lands in the catch with `initialized`
      -- still false.
      if s.initialized then ⟨s, [], []⟩
      else
        let ec1 := ecInit s.ec generateOk
        if generateOk then
          ⟨{ s with ec := ec1, amb := ambInitStep s.amb ec1,
                    sfx := sfxInitStep s.sfx ec1, initialized := true },
           caughtUnlock env, [.ecInitD, .ambInitD, .sfxInitD]⟩
        else ⟨{ s with ec := ec1 }, caughtUnlock env, [.ecInitD]⟩
  | .resume env, s => ⟨s, caughtUnlock env, []⟩
  | .toggleMute, s =>
      let s1 := { s with muted := !s.muted }
      let rEc := ecSetMuted s1.ec s1.muted
      if s1.muted then
        let rAmb := ambStop s1.amb
        ⟨{ s1 with ec := rEc.1, amb := rAmb.1 },
         liftEc rEc.2 ++ liftAmb rAmb.2, [.ecSetMutedD s1.muted, .ambStopD]⟩
      else if s1.soundscapeStarted then
        let rAmb := ambStart s1.amb
        ⟨{ s1 with ec := rEc.1, amb := rAmb.1 },
         liftEc rEc.2 ++ liftAmb rAmb.2, [.ecSetMutedD s1.muted, .ambStartD]⟩
      else ⟨{ s1 with ec := rEc.1 }, liftEc rEc.2, [.ecSetMutedD s1.muted]⟩
  | .getStateQ, s => ⟨s, [], []⟩
  | .playTestBeep, s => ⟨s, [⟨.beepOp, true⟩], []⟩
  | .playCollect pitch nowMs, s =>
      if ¬ s.initialized ∨ s.muted then ⟨s, [], []⟩
      else
        let r := sfxPlayCollect s.sfx ⟨some pitch, none, none, none⟩ nowMs
        ⟨{ s with sfx := r.1 }, liftSfx r.2, [.sfxPlayCollectD pitch]⟩
  | .playSuperStarCollect, s =>
      if ¬ s.initialized ∨ s.muted then ⟨s, [], []⟩
      else
        let r := sfxPlaySuperStarCollect s.sfx
        ⟨{ s with sfx := r.1 }, liftSfx r.2, [.sfxPlaySuperStarCollectD]⟩
  | .playRejectDischarge, s =>
      if ¬ s.initialized ∨ s.muted then ⟨s, [], []⟩
      else
        let r := sfxPlayRejectDischarge s.sfx
        ⟨{ s with sfx := r.1 }, liftSfx r.2, [.sfxPlayRejectDischargeD]⟩
  | .playCapture, s =>
      if ¬ s.initialized ∨ s.muted then ⟨s, [], []⟩
      else
        let r := sfxPlayCapture s.sfx s.amb noParams
        ⟨{ s with sfx := r.sfx, amb := r.amb },
         liftSfx r.sfxOps ++ liftAmb r.ambOps, [.sfxPlayCaptureD]⟩
  | .playDischarge level, s =>
      if ¬ s.initialized ∨ s.muted then ⟨s, [], []⟩
      else
        let r := sfxPlayDischarge s.sfx s.amb ⟨none, some level, none, none⟩
        ⟨{ s with sfx := r.sfx, amb := r.amb },
         liftSfx r.sfxOps ++ liftAmb r.ambOps, [.sfxPlayDischargeD level]⟩
  | .playLevelUp level, s =>
      if ¬ s.initialized ∨ s.muted then ⟨s, [], []⟩
      else
        let r := sfxPlayLevelUp s.sfx s.amb ⟨none, some level, none, none⟩
        ⟨{ s with sfx := r.sfx, amb := r.amb },
         liftSfx r.sfxOps ++ liftAmb r.ambOps, [.sfxPlayLevelUpD level]⟩
  | .playMaxStack, s =>
      if ¬ s.initialized ∨ s.muted then ⟨s, [], []⟩
      else
        let r := sfxPlayMaxStack s.sfx s.amb
        ⟨{ s with sfx := r.sfx, amb := r.amb },
         liftSfx r.sfxOps ++ liftAmb r.ambOps, [.sfxPlayMaxStackD]⟩
  | .playModalEnter, s =>
      if ¬ s.initialized ∨ s.muted then ⟨s, [], []⟩
      else
        let r := sfxPlayModalEnter s.sfx
        ⟨{ s with sfx := r.1 }, liftSfx r.2, [.sfxPlayModalEnterD]⟩
  | .playModalClose, s =>
      if ¬ s.initialized ∨ s.muted then ⟨s, [], []⟩
      else
        let r := sfxPlayModalClose s.sfx
        ⟨{ s with sfx := r.1 }, liftSfx r.2, [.sfxPlayModalCloseD]⟩
  | .playChamberCapture count, s =>
      if ¬ s.initialized ∨ s.muted then ⟨s, [], []⟩
      else
        let r := sfxPlayChamberCapture s.sfx ⟨none, none, some count, none⟩
        ⟨{ s with sfx := r.1 }, liftSfx r.2, [.sfxPlayChamberCaptureD count]⟩
  | .playBridgeSpawn, s =>
      if ¬ s.initialized ∨ s.muted then ⟨s, [], []⟩
      else
        let r := sfxPlayBridgeSpawn s.sfx s.amb
        ⟨{ s with sfx := r.sfx, amb := r.amb },
         liftSfx r.sfxOps ++ liftAmb r.ambOps, [.sfxPlayBridgeSpawnD]⟩
  | .playCollectionComplete, s =>
      if ¬ s.initialized ∨ s.muted then ⟨s, [], []⟩
      else
        let r := sfxPlayCollectionComplete s.sfx
        ⟨{ s with sfx := r.1 }, liftSfx r.2, [.sfxPlayCollectionCompleteD]⟩
  | .playRedHeartCapture, s =>
      if ¬ s.initialized ∨ s.muted then ⟨s, [], []⟩
      else
        let r := sfxPlayRedHeartCapture s.sfx
        ⟨{ s with sfx := r.1 }, liftSfx r.2, [.sfxPlayRedHeartCaptureD]⟩
  | .playSpiralSpawn, s =>
      if ¬ s.initialized ∨ s.muted then ⟨s, [], []⟩
      else
        let r := sfxPlaySpiralSpawn s.sfx
        ⟨{ s with sfx := r.1 }, liftSfx r.2, [.sfxPlaySpiralSpawnD]⟩
  | .playSpiralDefeat, s =>
      if ¬ s.initialized ∨ s.muted then ⟨s, [], []⟩
      else
        let r := sfxPlaySpiralDefeat s.sfx
        ⟨{ s with sfx := r.1 }, liftSfx r.2, [.sfxPlaySpiralDefeatD]⟩
  | .playSpiralDamage, s =>
      if ¬ s.initialized ∨ s.muted then ⟨s, [], []⟩
      else
        let r := sfxPlaySpiralDamage s.sfx
        ⟨{ s with sfx := r.1 }, liftSfx r.2, [.sfxPlaySpiralDamageD]⟩
  | .setSpiralSuction v, s =>
      -- guard failure still delegates a stop: SFXEngine.setSpiralSuction(0)
      if ¬ s.initialized ∨ s.muted then
        let r := sfxSetSpiralSuction s.sfx 0
        ⟨{ s with sfx := r.1 }, liftSfx r.2, [.sfxSetSpiralSuctionD 0]⟩
      else
        let r := sfxSetSpiralSuction s.sfx v
        ⟨{ s with sfx := r.1 }, liftSfx r.2, [.sfxSetSpiralSuctionD v]⟩
  | .setChamberCrackling v, s =>
      if ¬ s.initialized ∨ s.muted then
        let r := sfxSetChamberCrackling s.sfx 0
        ⟨{ s with sfx := r.1 }, liftSfx r.2, [.sfxSetChamberCracklingD 0]⟩
      else
        let r := sfxSetChamberCrackling s.sfx v
        ⟨{ s with sfx := r.1 }, liftSfx r.2, [.sfxSetChamberCracklingD v]⟩
  | .setBridgeAttraction v, s =>
      if ¬ s.initialized ∨ s.muted then
        let r := sfxSetBridgeAttraction s.sfx 0
        ⟨{ s with sfx := r.1 }, liftSfx r.2, [.sfxSetBridgeAttractionD 0]⟩
      else
        let r := sfxSetBridgeAttraction s.sfx v
        ⟨{ s with sfx := r.1 }, liftSfx r.2, [.sfxSetBridgeAttractionD v]⟩
  | .startBgMusic, s =>
      if ¬ s.initialized ∨ s.muted ∨ s.soundscapeStarted then ⟨s, [], []⟩
      else
        let r := ambStart s.amb
        ⟨{ s with soundscapeStarted := true, amb := r.1 },
         liftAmb r.2, [.ambStartD]⟩
  | .stopBgMusic, s =>
      if ¬ s.soundscapeStarted then ⟨s, [], []⟩
      else
        let r := ambStop s.amb
        ⟨{ s with soundscapeStarted := false, amb := r.1 },
         liftAmb r.2, [.ambStopD]⟩
  | .setIntensity v, s =>
      -- no initialized/muted guard in the source
      let r := ambSetIntensity s.amb v
      ⟨{ s with amb := r.1 }, liftAmb r.2, [.ambSetIntensityD v]⟩
  | .setGameLevel v, s =>
      -- no initialized/muted guard in the source
      let r := ambSetGameLevel s.amb v
      ⟨{ s with amb := r.1 }, liftAmb r.2, [.ambSetGameLevelD v]⟩
  | .triggerSwell dur, s =>
      -- no initialized/muted guard in the source
      let r := ambSwell s.amb dur
      ⟨{ s with amb := r.1 }, liftAmb r.2, [.ambSwellD dur]⟩
  | .setInvertedMode b, s =>
      if ¬ s.initialized ∨ s.muted then ⟨s, [], []⟩
      else
        let rEc := ecSetUnderwaterMode s.ec b
        let rAmb := ambSetInvertedMode s.amb b
        ⟨{ s with amb := rAmb.1 }, liftEc rEc ++ liftAmb rAmb.2,
         [.ecSetUnderwaterModeD b, .ambSetInvertedModeD b]⟩
  | .dispose, s =>
      let rS := sfxDispose s.sfx
      let rA := ambDispose s.amb
      let rE := ecDispose s.ec
      ⟨{ s with sfx := rS.1, amb := rA.1, ec := rE.1,
                initialized := false, soundscapeStarted := false },
       liftSfx rS.2 ++ liftAmb rA.2 ++ liftEc rE.2,
       [.sfxDisposeD, .ambDisposeD, .ecDisposeD]⟩

/-- The per-event trigger methods plus `setInvertedMode`: the calls the
orchestrator guards with the initialized/muted check and drops entirely
when the check fails. -/
def OrchCall.isGuardedEvent : OrchCall → Bool
  | .playCollect _ _ => true
  | .playSuperStarCollect => true
  | .playRejectDischarge => true
  | .playCapture => true
  | .playDischarge _ => true
  | .playLevelUp _ => true
  | .playMaxStack => true
  | .playModalEnter => true
  | .playModalClose => true
  | .playChamberCapture _ => true
  | .playBridgeSpawn => true
  | .playCollectionComplete => true
  | .playRedHeartCapture => true
  | .playSpiralSpawn => true
  | .playSpiralDefeat => true
  | .playSpiralDamage => true
  | .setInvertedMode _ => true
  | _ => false

/-! ## Claim theorems: C1, C9 -/

/-- C1 counterexample: on the freshly constructed (uninitialized)
system, `setGameLevel(3)` is delegated to the Ambient Soundscape anyway
and changes its remembered game level from 1 to 3 — the orchestrator
does not guard this per-§4.2 method with the initialized/muted check, so
the claim that every such method delegates nothing and changes no
sub-component state when uninitialized is false. -/
theorem c1_counterexample :
    toneFresh.initialized = false ∧
    (toneDispatch (.setGameLevel 3) toneFresh).delegated = [.ambSetGameLevelD 3] ∧
    (toneDispatch (.setGameLevel 3) toneFresh).state.amb.gameLevel = 3 ∧
    toneFresh.amb.gameLevel = 1 := by
  refine ⟨rfl, rfl, ?_, rfl⟩
  norm_num [toneDispatch, ambSetGameLevel, ambSetIntensity, toneFresh, ambFresh,
    qmin, qmax]

/-- C1 (amended): the per-event play methods and `setInvertedMode` are
guarded by the initialized/muted check and, when it fails, delegate
nothing and change nothing; the per-texture setters instead delegate a
stop (`setX(0)`) when the check fails; and `setIntensity`,
`setGameLevel` and `triggerSwell` delegate to the soundscape
unconditionally. -/
theorem c1_amended (c : OrchCall) (s : ToneState)
    (hG : ¬ (s.initialized = true ∧ s.muted = false)) :
    (c.isGuardedEvent = true → toneDispatch c s = ⟨s, [], []⟩) ∧
    (∀ v, toneDispatch (.setChamberCrackling v) s
        = ⟨{ s with sfx := (sfxSetChamberCrackling s.sfx 0).1 },
           liftSfx (sfxSetChamberCrackling s.sfx 0).2,
           [.sfxSetChamberCracklingD 0]⟩) ∧
    (∀ v, toneDispatch (.setSpiralSuction v) s
        = ⟨{ s with sfx := (sfxSetSpiralSuction s.sfx 0).1 },
           liftSfx (sfxSetSpiralSuction s.sfx 0).2,
           [.sfxSetSpiralSuctionD 0]⟩) ∧
    (∀ v, toneDispatch (.setBridgeAttraction v) s
        = ⟨{ s with sfx := (sfxSetBridgeAttraction s.sfx 0).1 },
           liftSfx (sfxSetBridgeAttraction s.sfx 0).2,
           [.sfxSetBridgeAttractionD 0]⟩) ∧
    (∀ v, (toneDispatch (.setGameLevel v) s).delegated = [.ambSetGameLevelD v] ∧
          (toneDispatch (.setGameLevel v) s).state.amb = (ambSetGameLevel s.amb v).1) ∧
    (∀ v, (toneDispatch (.setIntensity v) s).delegated = [.ambSetIntensityD v] ∧
          (toneDispatch (.setIntensity v) s).state.amb = (ambSetIntensity s.amb v).1) ∧
    (∀ d, (toneDispatch (.triggerSwell d) s).delegated = [.ambSwellD d]) := by
  have hg : ¬ s.initialized ∨ s.muted := by
    by_cases h1 : s.initialized = true <;> by_cases h2 : s.muted = true <;>
      simp_all
  refine ⟨?_, ?_, ?_, ?_, ?_, ?_, ?_⟩
  · intro hc
    cases c <;> simp [OrchCall.isGuardedEvent] at hc <;>
      (simp only [toneDispatch]; rw [if_pos hg])
  · intro v; simp only [toneDispatch]; rw [if_pos hg]
  · intro v; simp only [toneDispatch]; rw [if_pos hg]
  · intro v; simp only [toneDispatch]; rw [if_pos hg]
  · intro v; exact ⟨rfl, rfl⟩
  · intro v; exact ⟨rfl, rfl⟩
  · intro d; exact rfl

/-- C1 witness: on the fresh system the guard fails; `playCollect` is
dropped while `setChamberCrackling(4)` still delegates a stop and
`setGameLevel(3)` delegates unconditionally. -/
theorem c1_witness :
    (¬ (toneFresh.initialized = true ∧ toneFresh.muted = false)) ∧
    toneDispatch (.playCollect 0 0) toneFresh = ⟨toneFresh, [], []⟩ ∧
    toneDispatch (.setChamberCrackling 4) toneFresh
      = ⟨{ toneFresh with sfx := (sfxSetChamberCrackling toneFresh.sfx 0).1 },
         liftSfx (sfxSetChamberCrackling toneFresh.sfx 0).2,
         [.sfxSetChamberCracklingD 0]⟩ ∧
    (toneDispatch (.setGameLevel 3) toneFresh).delegated = [.ambSetGameLevelD 3] :=
  ⟨by decide,
   (c1_amended (.playCollect 0 0) toneFresh (by decide)).1 rfl,
   (c1_amended (.playCollect 0 0) toneFresh (by decide)).2.1 4,
   ((c1_amended (.playCollect 0 0) toneFresh (by decide)).2.2.2.2.1 3).1⟩

/-- A throw can only escape through an uncaught throwable op. -/
theorem throwsUnder_eq_false {α : Type} (tb orc : α → Bool) (l : List (Emit α))
    (h : ∀ e ∈ l, tb e.op = false ∨ e.caught = true) :
    throwsUnder tb orc l = false := by
  unfold throwsUnder
  rw [List.any_eq_false]
  intro e he
  rcases h e he with h' | h' <;> simp [h']

/-- The unlock steps are all emitted inside try/catch. -/
theorem throwsUnder_caughtUnlock (orc : ToneOp → Bool) (env : UnlockEnv) :
    throwsUnder ToneOp.throwable orc (caughtUnlock env) = false := by
  apply throwsUnder_eq_false
  intro e he
  right
  simp [caughtUnlock] at he
  obtain ⟨st, _, rfl⟩ := he
  rfl

/-- `setMuted` emits at most a mute-flag assignment, which cannot throw. -/
theorem throwsUnder_ecSetMuted (orc : ToneOp → Bool) (s : EffectState) (m : Bool) :
    throwsUnder ToneOp.throwable orc (liftEc (ecSetMuted s m).2) = false := by
  apply throwsUnder_eq_false
  intro e he
  left
  cases hmc : s.masterChannel with
  | none => simp [ecSetMuted, hmc, liftEc] at he
  | some n =>
      simp [ecSetMuted, hmc, liftEc] at he
      subst he
      rfl

/-- `EffectChain.dispose` emits only node disposals, which cannot throw. -/
theorem throwsUnder_ecDispose (orc : ToneOp → Bool) (s : EffectState) :
    throwsUnder ToneOp.throwable orc (liftEc (ecDispose s).2) = false := by
  apply throwsUnder_eq_false
  intro e he
  left
  unfold ecDispose at he
  simp only [liftEc, List.mem_map] at he
  obtain ⟨a, ha, rfl⟩ := he
  obtain ⟨n, _, rfl⟩ := ha
  rfl

/-- C9: with the orchestrator and its sound-producing sub-components
uninitialized — the pre-init, failed-init and post-dispose states,
including right after construction — every public method, under every
fault oracle (every subset of engine scheduling calls made to throw),
emits no uncaught throwable engine call: nothing can escape to the
caller, each method degrading to a no-op or swallowing errors
internally.  This covers `dispose()` immediately after construction. -/
theorem throwsUnder_append {α : Type} (tb orc : α → Bool)
    (l₁ l₂ : List (Emit α)) :
    throwsUnder tb orc (l₁ ++ l₂)
      = (throwsUnder tb orc l₁ || throwsUnder tb orc l₂) := by
  simp [throwsUnder, List.any_append]

theorem throwsUnder_nil {α : Type} (tb orc : α → Bool) :
    throwsUnder tb orc [] = false := rfl

/-- `SFXEngine.dispose` on an uninitialized engine emits nothing. -/
theorem throwsUnder_sfxDispose (orc : ToneOp → Bool) (x : SfxState)
    (h : x.initialized = false) :
    throwsUnder ToneOp.throwable orc (liftSfx (sfxDispose x).2) = false := by
  simp [sfxDispose, sfxSetChamberCrackling, sfxSetBridgeAttraction, h, liftSfx,
    throwsUnder]

/-- `AmbientSoundscape.dispose` on an uninitialized soundscape emits
only timer clearing and node disposals, which cannot throw. -/
theorem throwsUnder_ambDispose (orc : ToneOp → Bool) (a : AmbState)
    (h : a.initialized = false) :
    throwsUnder ToneOp.throwable orc (liftAmb (ambDispose a).2) = false := by
  simp [ambDispose, ambStop, h, liftAmb, throwsUnder, AmbOp.throwable,
    ToneOp.throwable]

theorem c9_never_throws (orc : ToneOp → Bool) (c : OrchCall) (s : ToneState)
    (h1 : s.initialized = false) (h2 : s.amb.initialized = false)
    (h3 : s.sfx.initialized = false) :
    throwsUnder ToneOp.throwable orc (toneDispatch c s).ops = false := by
  cases c with
  | init g env =>
      have hops : (toneDispatch (.init g env) s).ops = caughtUnlock env := by
        cases g <;> simp [toneDispatch, h1]
      rw [hops]; exact throwsUnder_caughtUnlock orc env
  | resume env => exact throwsUnder_caughtUnlock orc env
  | toggleMute =>
      cases hm : s.muted <;> cases hss : s.soundscapeStarted <;>
        simp [toneDispatch, hm, hss, throwsUnder_append, throwsUnder_ecSetMuted,
          ambStop, ambStart, h2, liftAmb, throwsUnder_nil]
  | getStateQ => simp [toneDispatch, throwsUnder]
  | playTestBeep => simp [toneDispatch, throwsUnder]
  | playCollect p t => simp [toneDispatch, h1, throwsUnder]
  | playSuperStarCollect => simp [toneDispatch, h1, throwsUnder]
  | playRejectDischarge => simp [toneDispatch, h1, throwsUnder]
  | playCapture => simp [toneDispatch, h1, throwsUnder]
  | playDischarge l => simp [toneDispatch, h1, throwsUnder]
  | playLevelUp l => simp [toneDispatch, h1, throwsUnder]
  | playMaxStack => simp [toneDispatch, h1, throwsUnder]
  | playModalEnter => simp [toneDispatch, h1, throwsUnder]
  | playModalClose => simp [toneDispatch, h1, throwsUnder]
  | playChamberCapture n => simp [toneDispatch, h1, throwsUnder]
  | playBridgeSpawn => simp [toneDispatch, h1, throwsUnder]
  | playCollectionComplete => simp [toneDispatch, h1, throwsUnder]
  | playRedHeartCapture => simp [toneDispatch, h1, throwsUnder]
  | playSpiralSpawn => simp [toneDispatch, h1, throwsUnder]
  | playSpiralDefeat => simp [toneDispatch, h1, throwsUnder]
  | playSpiralDamage => simp [toneDispatch, h1, throwsUnder]
  | setSpiralSuction v =>
      simp [toneDispatch, h1, sfxSetSpiralSuction, h3, liftSfx, throwsUnder]
  | setChamberCrackling v =>
      simp [toneDispatch, h1, sfxSetChamberCrackling, h3, liftSfx, throwsUnder]
  | setBridgeAttraction v =>
      simp [toneDispatch, h1, sfxSetBridgeAttraction, h3, liftSfx, throwsUnder]
  | startBgMusic => simp [toneDispatch, h1, throwsUnder]
  | stopBgMusic =>
      cases hss : s.soundscapeStarted <;>
        simp [toneDispatch, hss, ambStop, h2, liftAmb, throwsUnder]
  | setIntensity v =>
      simp [toneDispatch, ambSetIntensity, h2, liftAmb, throwsUnder]
  | setGameLevel v =>
      simp [toneDispatch, ambSetGameLevel, ambSetIntensity, h2, liftAmb,
        throwsUnder]
  | triggerSwell d => simp [toneDispatch, ambSwell, h2, liftAmb, throwsUnder]
  | setInvertedMode b => simp [toneDispatch, h1, throwsUnder]
  | dispose =>
      simp [toneDispatch, throwsUnder_append, throwsUnder_sfxDispose orc s.sfx h3,
        throwsUnder_ambDispose orc s.amb h2, throwsUnder_ecDispose]

/-- The oracle that makes every engine scheduling call throw. -/
def orcAll : ToneOp → Bool := fun _ => true

/-- C9 witness: `dispose()` immediately after construction, with every
engine call throwing, still escapes nothing. -/
theorem c9_witness :
    (toneFresh.initialized = false ∧ toneFresh.amb.initialized = false ∧
     toneFresh.sfx.initialized = false) ∧
    throwsUnder ToneOp.throwable orcAll (toneDispatch .dispose toneFresh).ops
      = false :=
  ⟨⟨rfl, rfl, rfl⟩, c9_never_throws orcAll .dispose toneFresh rfl rfl rfl⟩

end Br1dge
